import Mathlib

/-!
# Verification development for the `em` compiler front end

Shallow embedding of the core of the `em` compiler (lexer, parser, and
LLVM-IR emitter) together with theorems settling the specification
claims about it.

Conventions of the embedding:

* C++ enum values (`Token_Type`, `Precedence`) are embedded as their
  numeric codes (`Nat`), exactly as the C++ compares and ranges over
  them; each enumerator is a named constant with the value the enum
  assigns.
* Machine integers that can only hold small non-negative quantities
  (cursor indices, positions, block counters) are `Nat`; `int` payloads
  are `Int`.
* Fallible code (`exit(1)` on a diagnostic) is embedded as
  `Except String _`: an `.error` is the process aborting with that
  diagnostic.  Code paths that dereference a null pointer are embedded
  as a distinguished `.error` as well.
* The C++ `while (1)` parser loops advance a cursor through a finite
  token vector; they are embedded with an explicit fuel parameter so
  that every function is a computable total Lean definition.  Fuel
  exhaustion is a distinguished `.error "OUT_OF_FUEL"`; all concrete
  evaluations in this file supply ample fuel.
-/

namespace Em

/-! ## Token kinds (`lexer.h`, `enum Token_Type`)

The enum's numeric values are load-bearing in the source: family
predicates (`is_literal`, `is_unary_op`, `is_binary_op`) are range
checks over them, so we embed a token kind as its numeric code. -/

def TOKEN_NONE : Nat := 0
def TOKEN_IDENTIFIER : Nat := 1
def TOKEN_KEYWORD : Nat := 2
def TOKEN_DATA_TYPE : Nat := 3
def TOKEN_NUMERIC_LITERAL : Nat := 4
def TOKEN_CHAR_LITERAL : Nat := 5
def TOKEN_STRING_LITERAL : Nat := 6
def TOKEN_BOOL_LITERAL : Nat := 7
def TOKEN_SEPARATOR : Nat := 8
def TOKEN_DELIMITER : Nat := 9

def TOKEN_LEFT_BRACE : Nat := 100
def TOKEN_RIGHT_BRACE : Nat := 101
def TOKEN_LEFT_PAREN : Nat := 102
def TOKEN_RIGHT_PAREN : Nat := 103
def TOKEN_LEFT_SQUARE : Nat := 104
def TOKEN_RIGHT_SQUARE : Nat := 105

def TOKEN_NOT : Nat := 200
def TOKEN_BIT_NOT : Nat := 201
def TOKEN_INCREMENT : Nat := 202
def TOKEN_DECREMENT : Nat := 203

def TOKEN_PLUS : Nat := 300
def TOKEN_MINUS : Nat := 301
def TOKEN_DIVIDE : Nat := 302
def TOKEN_MOD : Nat := 303
def TOKEN_PLUSEQ : Nat := 304
def TOKEN_MINUSEQ : Nat := 305
def TOKEN_MULTIPLYEQ : Nat := 306
def TOKEN_DIVIDEEQ : Nat := 307
def TOKEN_MODEQ : Nat := 308
def TOKEN_LESS : Nat := 309
def TOKEN_GREATER : Nat := 310
def TOKEN_LESSEQ : Nat := 311
def TOKEN_GREATEREQ : Nat := 312
def TOKEN_LSHIFT : Nat := 313
def TOKEN_RSHIFT : Nat := 314
def TOKEN_LSHIFT_EQ : Nat := 315
def TOKEN_RSHIFT_EQ : Nat := 316
def TOKEN_ASSIGN : Nat := 317
def TOKEN_EQUAL : Nat := 318
def TOKEN_NOTEQ : Nat := 319
def TOKEN_AND : Nat := 320
def TOKEN_OR : Nat := 321
def TOKEN_BIT_OR : Nat := 322
def TOKEN_XOR : Nat := 323
def TOKEN_ANDEQ : Nat := 324
def TOKEN_OREQ : Nat := 325
def TOKEN_BIT_ANDEQ : Nat := 326
def TOKEN_BIT_OREQ : Nat := 327
def TOKEN_XOREQ : Nat := 328
def TOKEN_DOT : Nat := 329

def TOKEN_STAR : Nat := 400
def TOKEN_AMPERSAND : Nat := 401

/-- A lexed token (`lexer.h`, `struct Token`). -/
structure Token where
  val : String
  type : Nat := TOKEN_NONE
  line_num : Nat := 0
  position : Nat := 0
  file_name : String := ""
  deriving Repr, DecidableEq

/-- `lexer.h`: `is_literal` — literal family is the range 4..7. -/
def is_literal (tok : Token) : Bool :=
  4 ≤ tok.type && tok.type ≤ 7

/-- `lexer.h`: `is_unary_op` — unary-op family is the range [200, 300). -/
def is_unary_op (tok : Token) : Bool :=
  200 ≤ tok.type && tok.type < 300

/-- `lexer.h`: `is_binary_op` — binary-op family is every code ≥ 300. -/
def is_binary_op (tok : Token) : Bool :=
  300 ≤ tok.type

/-! ## The string-keyed hash map (`data_structures.h`, `smap`)

The source `smap` is an open-addressing hash table.  Its observable
behaviour (the only thing any caller can see through `insert` and
`operator[]`) is that of a finite map: `insert` overwrites the value
when the key is already present and otherwise adds a fresh entry, and
`operator[]` returns the stored value or `NULL`.  We embed that
observable map as an association list: one entry per key, in insertion
order.  `smap.get` embeds `operator[]`, with `none` for `NULL`. -/

structure smap (α : Type) where
  entries : List (String × α)
  deriving Repr, DecidableEq

def smap.empty {α : Type} : smap α := ⟨[]⟩

/-- `data_structures.h`, `smap::insert`: probing for the key either
finds an occupied slot with the same key — and then **overwrites its
value and returns** — or finds a free slot and stores a new pair.
No code path reports an error. -/
def smap.insert {α : Type} (m : smap α) (key : String) (value : α) : smap α :=
  if m.entries.any (fun e => e.1 = key) then
    ⟨m.entries.map (fun e => if e.1 = key then (key, value) else e)⟩
  else
    ⟨m.entries ++ [(key, value)]⟩

/-- `data_structures.h`, `smap::operator[]`: the stored value for the
key, or `NULL` (here `none`) when the key is absent. -/
def smap.get {α : Type} (m : smap α) (key : String) : Option α :=
  (m.entries.find? (fun e => e.1 = key)).map (·.2)

/-! ## Parse-time symbol table (`lexer.h`, `Symbol_Table`) -/

/-- `lexer.h`, `enum Data_Type`. -/
inductive Data_Type where
  | T_UNIDENTIFIED | T_VOID | T_BOOL | T_INT | T_FLOAT | T_CHAR | T_STRING
  deriving Repr, DecidableEq

open Data_Type

/-- `ast.h`, `type_map`: maps a data-type token's text to `Data_Type`
(unknown text maps to `T_VOID`). -/
def type_map (ty : String) : Data_Type :=
  if ty = "void" then T_VOID
  else if ty = "bool" then T_BOOL
  else if ty = "int" then T_INT
  else if ty = "float" then T_FLOAT
  else if ty = "char" then T_CHAR
  else if ty = "string" then T_STRING
  else T_VOID

/-- `lexer.h`, `enum Symbol_Type`. -/
inductive Symbol_Type where
  | SYM_VARIABLE | SYM_FUNCTION
  deriving Repr, DecidableEq

/-- `lexer.h`, `struct Symbol`. -/
structure Symbol where
  identifier : String
  symbol_type : Symbol_Type
  is_declaration : Bool := true
  return_type : Data_Type := T_UNIDENTIFIED
  signature : Option (List Data_Type) := none
  deriving Repr, DecidableEq

/-- `lexer.h`, `struct Symbol_Table`.  The doubly-linked scope list is
embedded as the list of scopes from innermost (head) to outermost:
`curr_scope` is the head, pushing prepends, popping drops the head. -/
structure Symbol_Table where
  scopes : List (smap Symbol) := []
  global_variables : smap Symbol := smap.empty
  functions : smap Symbol := smap.empty
  function_prototypes : smap Symbol := smap.empty
  deriving Repr, DecidableEq

/-! ## Lexer artifact and token cursor (`lexer.h`, `struct Lexer`)

`curr_token_index` is an `int` that starts at 0 and, as proved below,
is only ever incremented while strictly below `tokens.size()`; it is
embedded as a `Nat`. -/

structure Lexer where
  file_name : String := ""
  line : String := ""
  line_num : Nat := 0
  total_lines_postprocessing : Nat := 0
  tokens : List Token := []
  curr_token_index : Nat := 0
  symbol_table : Symbol_Table := {}
  entry_point_found : Bool := false
  deriving Repr, DecidableEq

/-- `lexer.h`, `Lexer::get_next_token`: `NULL` when `curr_token_index + 1`
is at or past `tokens.size()`, otherwise pre-increments the cursor and
returns the token there.  The embedding returns the updated lexer
alongside (the C++ mutates in place). -/
def Lexer.get_next_token (l : Lexer) : Option Token × Lexer :=
  if l.curr_token_index + 1 ≥ l.tokens.length then (none, l)
  else ((l.tokens.get? (l.curr_token_index + 1)),
        { l with curr_token_index := l.curr_token_index + 1 })

/-- `lexer.h`, `Lexer::peek_next_token`. -/
def Lexer.peek_next_token (l : Lexer) : Option Token :=
  if l.curr_token_index + 1 ≥ l.tokens.length then none
  else l.tokens.get? (l.curr_token_index + 1)

/-- `lexer.h`, `Lexer::peek`. -/
def Lexer.peek (l : Lexer) (num_tokens_ahead : Nat := 0) : Option Token :=
  if l.curr_token_index + num_tokens_ahead ≥ l.tokens.length then none
  else l.tokens.get? (l.curr_token_index + num_tokens_ahead)

/-- `lexer.h`, `Lexer::peek_prev_token`: `NULL` when the cursor is at
index 0 (the `int` cursor is never negative; see the invariant below). -/
def Lexer.peek_prev_token (l : Lexer) : Option Token :=
  if l.curr_token_index = 0 then none
  else l.tokens.get? (l.curr_token_index - 1)

/-- `lexer.h`, `Lexer::move_to_next_token`: no-op at the last token. -/
def Lexer.move_to_next_token (l : Lexer) : Lexer :=
  if l.curr_token_index + 1 ≥ l.tokens.length then l
  else { l with curr_token_index := l.curr_token_index + 1 }

/-! ## The line scanner (`lexer.cpp`, `generate_tokens`)

`generate_tokens` scans one source line left to right, accumulating a
"partial token" run (`curr`, classified by `ptok`) and dispatching on
symbols.  The embedding below is a direct translation:

* `lexer->line[pos]` on a `std::string` reads the null terminator at
  `pos = size()`; every read is embedded as `line_char`, with the
  null character for any out-of-range index.
* The C++ `while` loops become fuel-based recursion; the fuel supplied
  by `generate_tokens` is ample for the whole line, so `OUT_OF_FUEL`
  is unreachable on any actual input.
* The `#` preprocessor branch calls `handle_preprocessor_directive`,
  which recursively lexes another *file* (`perform_lexical_analysis`,
  file I/O) or aborts on an unknown directive.  File expansion is
  outside this line-level model, so the branch is embedded as a
  distinguished error; no claim below exercises it.
* `Partial_Token_Type ptok` is declared uninitialised in the source and
  provably never read before first being assigned (every read is
  guarded by `curr != ""`); the embedding starts it at `PTOK_ALNUM`.
-/

/-- `lexer.h`, `enum Partial_Token_Type`. -/
inductive Partial_Token_Type where
  | PTOK_NUMERIC | PTOK_ALNUM
  deriving Repr, DecidableEq

open Partial_Token_Type

/-- `lexer.h`: the keywords table. -/
def KEYWORDS : List String :=
  ["if", "else", "for", "while", "return", "break", "continue"]

/-- `lexer.h`: the data-type names table. -/
def DATA_TYPES : List String :=
  ["void", "bool", "int", "float", "char", "string"]

/-- `lexer.h`, `is_alpha`. -/
def is_alpha (c : Char) : Bool :=
  (97 ≤ c.toNat && c.toNat ≤ 122) || (65 ≤ c.toNat && c.toNat ≤ 90)

/-- `lexer.h`, `is_numeric`. -/
def is_numeric (c : Char) : Bool :=
  48 ≤ c.toNat && c.toNat ≤ 57

/-- The null character, `std::string`'s terminator. -/
def nulChar : Char := Char.ofNat 0

/-- `lexer->line[pos]`: the character at `pos`, null at/past the end. -/
def line_char (line : String) (pos : Nat) : Char :=
  line.data.getD pos nulChar

/-- `lexer.cpp`, `make_token_as_per_ptok`: classify a finished
numeric/alphanumeric run and build its token. -/
def make_token_as_per_ptok (line_num : Nat) (file_name : String)
    (curr : String) (ptok : Partial_Token_Type) (pos : Nat) : Token :=
  if ptok = PTOK_NUMERIC then
    ⟨curr, TOKEN_NUMERIC_LITERAL, line_num, pos, file_name⟩
  else if curr = "true" || curr = "false" then
    ⟨curr, TOKEN_BOOL_LITERAL, line_num, pos, file_name⟩
  else if KEYWORDS.contains curr then
    ⟨curr, TOKEN_KEYWORD, line_num, pos, file_name⟩
  else if DATA_TYPES.contains curr then
    ⟨curr, TOKEN_DATA_TYPE, line_num, pos, file_name⟩
  else
    ⟨curr, TOKEN_IDENTIFIER, line_num, pos, file_name⟩

/-- `lexer.cpp`, `generate_tokens`, the inner multi-line-comment loop:
discard characters until `*/` or end of line.  Returns the new position
and whether the comment is still open. -/
def mlc_skip (fuel : Nat) (line : String) (pos : Nat) : Nat × Bool :=
  match fuel with
  | 0 => (pos, true)
  | fuel + 1 =>
    if line_char line pos = nulChar then (pos, true)
    else if line_char line pos = '*' then
      let pos := pos + 1
      if line_char line pos ≠ nulChar && line_char line pos = '/' then
        (pos + 1, false)
      else mlc_skip fuel line (pos + 1)
    else mlc_skip fuel line (pos + 1)

/-- `lexer.cpp`, `generate_tokens`: the whitespace-skipping loop. -/
def ws_skip (fuel : Nat) (line : String) (pos : Nat) : Nat :=
  match fuel with
  | 0 => pos
  | fuel + 1 =>
    if line_char line pos ≠ nulChar &&
        (line_char line pos = ' ' || line_char line pos = '\t') then
      ws_skip fuel line (pos + 1)
    else pos

/-- `lexer.cpp`, `generate_tokens`, the string-literal loop within the
`'"'` case: accumulate until the closing quote, rejecting tabs. -/
def string_literal_scan (fuel : Nat) (line : String) (pos : Nat)
    (literal : String) : Except String (String × Nat) :=
  match fuel with
  | 0 => .error "OUT_OF_FUEL"
  | fuel + 1 =>
    let literal_char := line_char line pos
    if literal_char ≠ nulChar && literal_char ≠ '"' then
      if literal_char = '\t' then
        .error "SYNTAX ERROR: Invalid tab character in string literal"
      else string_literal_scan fuel line (pos + 1) (literal.push literal_char)
    else
      if literal_char = nulChar then
        .error "SYNTAX ERROR: Invalid string literal. Closing quote not found."
      else .ok (literal, pos)

/-- `lexer.cpp`, `generate_tokens`, the symbol `switch`.  Given the
position of the symbol character, returns the extended token list, the
position after the munched symbol, and the updated
(`encountered_comment`, `inside_multiline_comment`) flags. -/
def handle_symbol (line : String) (line_num : Nat) (file_name : String)
    (toks : List Token) (pos : Nat) (imc : Bool) :
    Except String (List Token × Nat × Bool × Bool) :=
  let c := line_char line pos
  match c with
  | '{' => .ok (toks ++ [⟨"\x7b", TOKEN_LEFT_BRACE, line_num, pos, file_name⟩], pos + 1, false, imc)
  | '}' => .ok (toks ++ [⟨"\x7d", TOKEN_RIGHT_BRACE, line_num, pos, file_name⟩], pos + 1, false, imc)
  | '(' => .ok (toks ++ [⟨"(", TOKEN_LEFT_PAREN, line_num, pos, file_name⟩], pos + 1, false, imc)
  | ')' => .ok (toks ++ [⟨")", TOKEN_RIGHT_PAREN, line_num, pos, file_name⟩], pos + 1, false, imc)
  | '[' => .ok (toks ++ [⟨"[", TOKEN_LEFT_SQUARE, line_num, pos, file_name⟩], pos + 1, false, imc)
  | ']' => .ok (toks ++ [⟨"]", TOKEN_RIGHT_SQUARE, line_num, pos, file_name⟩], pos + 1, false, imc)
  | '\'' =>
    let pos := pos + 1
    let literal_val := line_char line pos
    if literal_val = nulChar || literal_val = '\t' then
      .error "SYNTAX ERROR: Invalid character literal"
    else
      let toks := toks ++ [⟨String.mk [literal_val], TOKEN_CHAR_LITERAL, line_num, pos, file_name⟩]
      let pos := pos + 1
      let closing_quote := line_char line pos
      if closing_quote = nulChar || closing_quote ≠ '\'' then
        .error "SYNTAX ERROR: Invalid character literal. Closing quote not found."
      else .ok (toks, pos + 1, false, imc)
  | '"' =>
    match string_literal_scan (line.length + 2) line (pos + 1) "" with
    | .error e => .error e
    | .ok (literal, endPos) =>
      .ok (toks ++ [⟨literal, TOKEN_STRING_LITERAL, line_num, endPos, file_name⟩], endPos + 1, false, imc)
  | '~' => .ok (toks ++ [⟨"~", TOKEN_BIT_NOT, line_num, pos, file_name⟩], pos + 1, false, imc)
  | '.' => .ok (toks ++ [⟨".", TOKEN_DOT, line_num, pos, file_name⟩], pos + 1, false, imc)
  | ',' => .ok (toks ++ [⟨",", TOKEN_SEPARATOR, line_num, pos, file_name⟩], pos + 1, false, imc)
  | ';' => .ok (toks ++ [⟨";", TOKEN_DELIMITER, line_num, pos, file_name⟩], pos + 1, false, imc)
  | '!' =>
    let pos := pos + 1
    let next := line_char line pos
    if next ≠ nulChar && next = '=' then
      .ok (toks ++ [⟨"!=", TOKEN_NOTEQ, line_num, pos, file_name⟩], pos + 1, false, imc)
    else .ok (toks ++ [⟨"!", TOKEN_NOT, line_num, pos, file_name⟩], pos, false, imc)
  | '+' =>
    let pos := pos + 1
    let next := line_char line pos
    if next ≠ nulChar && next = '=' then
      .ok (toks ++ [⟨"+=", TOKEN_PLUSEQ, line_num, pos, file_name⟩], pos + 1, false, imc)
    else if next ≠ nulChar && next = '+' then
      .ok (toks ++ [⟨"++", TOKEN_INCREMENT, line_num, pos, file_name⟩], pos + 1, false, imc)
    else .ok (toks ++ [⟨"+", TOKEN_PLUS, line_num, pos, file_name⟩], pos, false, imc)
  | '-' =>
    let pos := pos + 1
    let next := line_char line pos
    if next ≠ nulChar && next = '=' then
      .ok (toks ++ [⟨"-=", TOKEN_MINUSEQ, line_num, pos, file_name⟩], pos + 1, false, imc)
    else if next ≠ nulChar && next = '-' then
      .ok (toks ++ [⟨"--", TOKEN_DECREMENT, line_num, pos, file_name⟩], pos + 1, false, imc)
    else .ok (toks ++ [⟨"-", TOKEN_MINUS, line_num, pos, file_name⟩], pos, false, imc)
  | '*' =>
    let pos := pos + 1
    let next := line_char line pos
    if next ≠ nulChar && next = '=' then
      .ok (toks ++ [⟨"*=", TOKEN_MULTIPLYEQ, line_num, pos, file_name⟩], pos + 1, false, imc)
    else .ok (toks ++ [⟨"*", TOKEN_STAR, line_num, pos, file_name⟩], pos, false, imc)
  | '/' =>
    let pos := pos + 1
    let next := line_char line pos
    if next ≠ nulChar && next = '=' then
      .ok (toks ++ [⟨"/=", TOKEN_DIVIDEEQ, line_num, pos, file_name⟩], pos + 1, false, imc)
    else if next ≠ nulChar && next = '/' then
      .ok (toks, pos, true, imc)
    else if next ≠ nulChar && next = '*' then
      .ok (toks, pos + 1, false, true)
    else .ok (toks ++ [⟨"/", TOKEN_DIVIDE, line_num, pos, file_name⟩], pos, false, imc)
  | '%' =>
    let pos := pos + 1
    let next := line_char line pos
    if next ≠ nulChar && next = '=' then
      .ok (toks ++ [⟨"%=", TOKEN_MODEQ, line_num, pos, file_name⟩], pos + 1, false, imc)
    else .ok (toks ++ [⟨"%", TOKEN_MOD, line_num, pos, file_name⟩], pos, false, imc)
  | '<' =>
    let pos := pos + 1
    let next := line_char line pos
    if next ≠ nulChar && next = '=' then
      .ok (toks ++ [⟨"<=", TOKEN_LESSEQ, line_num, pos, file_name⟩], pos + 1, false, imc)
    else if next ≠ nulChar && next = '<' then
      let pos := pos + 1
      let next := line_char line pos
      if next ≠ nulChar && next = '=' then
        .ok (toks ++ [⟨"<<=", TOKEN_LSHIFT_EQ, line_num, pos, file_name⟩], pos + 1, false, imc)
      else .ok (toks ++ [⟨"<<", TOKEN_LSHIFT, line_num, pos, file_name⟩], pos, false, imc)
    else .ok (toks ++ [⟨"<", TOKEN_LESS, line_num, pos, file_name⟩], pos, false, imc)
  | '>' =>
    let pos := pos + 1
    let next := line_char line pos
    if next ≠ nulChar && next = '=' then
      .ok (toks ++ [⟨">=", TOKEN_GREATEREQ, line_num, pos, file_name⟩], pos + 1, false, imc)
    else if next ≠ nulChar && next = '>' then
      let pos := pos + 1
      let next := line_char line pos
      if next ≠ nulChar && next = '=' then
        .ok (toks ++ [⟨">>=", TOKEN_RSHIFT_EQ, line_num, pos, file_name⟩], pos + 1, false, imc)
      else .ok (toks ++ [⟨">>", TOKEN_RSHIFT, line_num, pos, file_name⟩], pos, false, imc)
    else .ok (toks ++ [⟨">", TOKEN_GREATER, line_num, pos, file_name⟩], pos, false, imc)
  | '=' =>
    let pos := pos + 1
    let next := line_char line pos
    if next ≠ nulChar && next = '=' then
      .ok (toks ++ [⟨"==", TOKEN_EQUAL, line_num, pos, file_name⟩], pos + 1, false, imc)
    else .ok (toks ++ [⟨"=", TOKEN_ASSIGN, line_num, pos, file_name⟩], pos, false, imc)
  | '&' =>
    let pos := pos + 1
    let next := line_char line pos
    if next ≠ nulChar && next = '=' then
      .ok (toks ++ [⟨"&=", TOKEN_BIT_ANDEQ, line_num, pos, file_name⟩], pos + 1, false, imc)
    else if next ≠ nulChar && next = '&' then
      let pos := pos + 1
      let next := line_char line pos
      if next ≠ nulChar && next = '=' then
        .ok (toks ++ [⟨"&&=", TOKEN_ANDEQ, line_num, pos, file_name⟩], pos + 1, false, imc)
      else .ok (toks ++ [⟨"&&", TOKEN_AND, line_num, pos, file_name⟩], pos, false, imc)
    else .ok (toks ++ [⟨"&", TOKEN_AMPERSAND, line_num, pos, file_name⟩], pos, false, imc)
  | '|' =>
    let pos := pos + 1
    let next := line_char line pos
    if next ≠ nulChar && next = '=' then
      .ok (toks ++ [⟨"|=", TOKEN_BIT_OREQ, line_num, pos, file_name⟩], pos + 1, false, imc)
    else if next ≠ nulChar && next = '|' then
      let pos := pos + 1
      let next := line_char line pos
      if next ≠ nulChar && next = '=' then
        .ok (toks ++ [⟨"||=", TOKEN_OREQ, line_num, pos, file_name⟩], pos + 1, false, imc)
      else .ok (toks ++ [⟨"||", TOKEN_OR, line_num, pos, file_name⟩], pos, false, imc)
    else .ok (toks ++ [⟨"|", TOKEN_BIT_OR, line_num, pos, file_name⟩], pos, false, imc)
  | '^' =>
    let pos := pos + 1
    let next := line_char line pos
    if next ≠ nulChar && next = '=' then
      .ok (toks ++ [⟨"^=", TOKEN_XOREQ, line_num, pos, file_name⟩], pos + 1, false, imc)
    else .ok (toks ++ [⟨"^", TOKEN_XOR, line_num, pos, file_name⟩], pos, false, imc)
  | _ => .error "SYNTAX ERROR: Invalid token encountered."

/-- `lexer.cpp`, `generate_tokens`: the main scanning loop over one
line.  State mirrors the C++ locals; returns the token list and the
`inside_multiline_comment` flag to carry to the next line. -/
def generate_tokens_loop (fuel : Nat) (line : String) (line_num : Nat)
    (file_name : String) (toks : List Token) (pos : Nat)
    (currently_reading_token : Bool) (imc : Bool)
    (curr : String) (ptok : Partial_Token_Type) :
    Except String (List Token × Bool) :=
  match fuel with
  | 0 => .error "OUT_OF_FUEL"
  | fuel + 1 =>
    if line_char line pos = nulChar then .ok (toks, imc)
    else if ¬ currently_reading_token then
      let (pos, imc) := if imc then mlc_skip (line.length + 2) line pos else (pos, imc)
      let pos := ws_skip (line.length + 2) line pos
      generate_tokens_loop fuel line line_num file_name toks pos true imc curr ptok
    else
      let c := line_char line pos
      if c = '#' then
        .error "PREPROCESSOR_DIRECTIVE (recursive file import is outside the line-level model)"
      else if curr ≠ "" && (c = nulChar || c = ' ' || c = '\t') then
        let toks := toks ++ [make_token_as_per_ptok line_num file_name curr ptok pos]
        if c = nulChar then .ok (toks, imc)
        else generate_tokens_loop fuel line line_num file_name toks (pos + 1) false imc "" ptok
      else if c = '.' && curr ≠ "" && ptok = PTOK_NUMERIC then
        generate_tokens_loop fuel line line_num file_name toks (pos + 1)
          currently_reading_token imc (curr.push c) ptok
      else if is_numeric c then
        let ptok := if curr = "" then PTOK_NUMERIC else ptok
        generate_tokens_loop fuel line line_num file_name toks (pos + 1)
          currently_reading_token imc (curr.push c) ptok
      else if is_alpha c || c = '_' then
        if curr ≠ "" && ptok = PTOK_NUMERIC then
          .error "SYNTAX ERROR: Invalid token. Identifiers cannot start with numeric characters."
        else
          generate_tokens_loop fuel line line_num file_name toks (pos + 1)
            currently_reading_token imc (curr.push c) PTOK_ALNUM
      else
        let toks := if curr ≠ "" then
          toks ++ [make_token_as_per_ptok line_num file_name curr ptok pos] else toks
        match handle_symbol line line_num file_name toks pos imc with
        | .error e => .error e
        | .ok (toks, pos, encountered_comment, imc) =>
          if encountered_comment then .ok (toks, imc)
          else generate_tokens_loop fuel line line_num file_name toks pos false imc "" ptok

/-- `lexer.cpp`, `generate_tokens`: scan one line, starting outside a
token run, with the carried-in multi-line-comment flag. -/
def generate_tokens (line : String) (line_num : Nat) (file_name : String)
    (inside_multiline_comment : Bool) : Except String (List Token × Bool) :=
  generate_tokens_loop (4 * line.length + 16) line line_num file_name
    [] 0 false inside_multiline_comment "" PTOK_ALNUM

/-! ## The AST (`ast.h`)

One tagged variant per construct.  Null child pointers in the C++ AST
(`AST_Expression* = NULL`) are embedded as the distinguished variant
`AST_Expression.null`; dereferencing it (calling `generate_ir` on it)
is embedded as an error, mirroring the crash a null dereference is.

Two bridging notes, each forced by the snapshot's own headers:

* `ast.h` declares `Declaration::data_type`, `Function_Definition::
  return_type` and `Function_Parameter::type` as `Data_Type`, and
  provides `type_map` to convert a data-type token's text; the parser
  embedding applies `type_map` to `tok->val` at those assignments.
* `ast.h`'s `AST_Jump_Expression::jump_type` is the string the parser
  stores (`"break"` / `"continue"`), while `parser.h` and
  `ir_generator.cpp` read it as the enum `J_BREAK` / `J_CONTINUE`; the
  embedding stores the enum, converting at the parser. -/

/-- The jump kinds (`J_BREAK` / `J_CONTINUE` as read by `parser.h` and
`ir_generator.cpp`). -/
inductive Jump_Type where
  | J_BREAK | J_CONTINUE
  deriving Repr, DecidableEq

open Jump_Type

/-- `ast.h`, `struct Function_Parameter`. -/
structure Function_Parameter where
  name : String
  type : Data_Type
  deriving Repr, DecidableEq

/-- The scalar payload of `AST_Literal::value` (the C++ union).  A
float literal keeps its source text: no claim depends on float
arithmetic, only on which tokens become float literals. -/
inductive LitVal where
  | i (n : Int)
  | f (raw : String)
  | c (ch : Char)
  | s (str : String)
  | b (b : Bool)
  deriving Repr, DecidableEq

/-- `ast.h`: the AST node, one constructor per `Expression_Type`. -/
inductive AST_Expression where
  | null
  | ident (name : String)
  | literal (type : Data_Type) (value : LitVal)
  | func_def (return_type : Data_Type) (function_name : String)
      (params : List Function_Parameter) (is_prototype : Bool)
      (block : List AST_Expression)
  | if_expr (condition : AST_Expression) (block : List AST_Expression)
      (else_block : List AST_Expression)
  | for_expr (init condition increment : AST_Expression)
      (block : List AST_Expression)
  | while_expr (condition : AST_Expression) (block : List AST_Expression)
  | decl (data_type : Data_Type) (variable_name : String)
  | unary (op : Nat) (postfix_flag : Bool) (expr : AST_Expression)
  | binary (op : Nat) (left right : AST_Expression)
  | func_call (function_name : String) (params : List AST_Expression)
  | ret (value : AST_Expression)
  | jump (jump_type : Jump_Type)
  | block_expr (block : List AST_Expression)
  deriving Repr

open AST_Expression

/-- `ast.h`, `Expression_Type` discriminator `EXPR_RETURN`. -/
def AST_Expression.is_return : AST_Expression → Bool
  | .ret _ => true
  | _ => false

/-- `ast.h`, `Expression_Type` discriminator `EXPR_JUMP`. -/
def AST_Expression.is_jump : AST_Expression → Bool
  | .jump _ => true
  | _ => false

/-- `ast.h`, `Expression_Type` discriminator `EXPR_IDENT`. -/
def AST_Expression.is_ident : AST_Expression → Bool
  | .ident _ => true
  | _ => false

/-! ## Operator precedence (`parser.h`) -/

def PREC_MIN : Nat := 0
def PREC_ASSIGNMENT : Nat := 1
def PREC_OR : Nat := 2
def PREC_AND : Nat := 3
def PREC_EQUALITY : Nat := 4
def PREC_COMPARISON : Nat := 5
def PREC_ADDITIVE : Nat := 6
def PREC_MULTIPLICATIVE : Nat := 7
def PREC_UNARY : Nat := 8
def PREC_PRIMARY : Nat := 9

/-- `parser.h`, `op_prec`: maps a token kind to its precedence level
(`PREC_MIN` for anything outside the listed cases). -/
def op_prec (type : Nat) : Nat :=
  if type ∈ [TOKEN_ASSIGN, TOKEN_PLUSEQ, TOKEN_MINUSEQ, TOKEN_MULTIPLYEQ,
      TOKEN_DIVIDEEQ, TOKEN_MODEQ, TOKEN_OREQ, TOKEN_BIT_OREQ, TOKEN_XOREQ,
      TOKEN_ANDEQ, TOKEN_BIT_ANDEQ] then PREC_ASSIGNMENT
  else if type ∈ [TOKEN_OR, TOKEN_BIT_OR, TOKEN_XOR] then PREC_OR
  else if type ∈ [TOKEN_AND, TOKEN_AMPERSAND] then PREC_AND
  else if type ∈ [TOKEN_EQUAL, TOKEN_NOTEQ] then PREC_EQUALITY
  else if type ∈ [TOKEN_LESS, TOKEN_LESSEQ, TOKEN_GREATER, TOKEN_GREATEREQ] then
    PREC_COMPARISON
  else if type ∈ [TOKEN_PLUS, TOKEN_MINUS] then PREC_ADDITIVE
  else if type ∈ [TOKEN_STAR, TOKEN_DIVIDE] then PREC_MULTIPLICATIVE
  else if type ∈ [TOKEN_NOT, TOKEN_BIT_NOT, TOKEN_INCREMENT, TOKEN_DECREMENT] then
    PREC_UNARY
  else if type ∈ [TOKEN_IDENTIFIER, TOKEN_DATA_TYPE, TOKEN_NUMERIC_LITERAL,
      TOKEN_CHAR_LITERAL, TOKEN_STRING_LITERAL, TOKEN_LEFT_PAREN] then
    PREC_PRIMARY
  else PREC_MIN

/-! ## The parser (`parser.cpp`)

A direct translation.  Each function threads the `Lexer` (the C++
mutates it in place) and takes fuel for the source's `while (1)`
loops; every mutual call passes the already-decremented fuel, so the
whole block is structurally recursive in fuel.  A parser diagnostic
(`throw_parser_error` … `exit(1)`) is an `Except.error`; dereferencing
`peek()` without a null check (as `parse_ast_block`,
`parse_ast_expression` and `parse_ast_function` do) is the
distinguished error `"NULL_DEREF"`.

The source's `op_prec[tok->type]` spelling is embedded as the
application `op_prec tok.type` (`op_prec` is the `parser.h` function).

`parse_ast_declaration` is notable for claim C7: it reads the type and
name tokens and builds the `AST_Declaration` node — it does not touch
`lexer->symbol_table` (no `parser.cpp` code path does). -/

/-- `parser.cpp`, `parse_ast_jump_expression`. -/
def parse_ast_jump_expression (l : Lexer) (jump_type : String) :
    Except String (AST_Expression × Lexer) :=
  let ast_jump := AST_Expression.jump
    (if jump_type = "break" then J_BREAK else J_CONTINUE)
  let (tok, l) := l.get_next_token
  match tok with
  | none => .error "SYNTAX ERROR: Missing delimiter at the end of the statement."
  | some tok =>
    if tok.type ≠ TOKEN_DELIMITER then
      .error "SYNTAX ERROR: Missing delimiter at the end of the statement."
    else .ok (ast_jump, l)

/-- `parser.cpp`, `parse_ast_declaration`: reads `<data_type>
<identifier>` and builds the node.  (The symbol table is not
consulted or updated.) -/
def parse_ast_declaration (l : Lexer) : Except String (AST_Expression × Lexer) :=
  match l.peek with
  | none => .error "NULL_DEREF"
  | some tok0 =>
    let data_type := type_map tok0.val
    let (tok, l) := l.get_next_token
    match tok with
    | none => .error "SYNTAX ERROR: Invalid declaration. Missing identifier after data type"
    | some tok =>
      if tok.type ≠ TOKEN_IDENTIFIER then
        .error "SYNTAX ERROR: Invalid declaration. Missing identifier after data type"
      else
        let variable_name := tok.val
        let (tok2, l) := l.get_next_token
        match tok2 with
        | none => .error "SYNTAX ERROR: Missing delimiter at the end of the statement."
        | some _ => .ok (AST_Expression.decl data_type variable_name, l)

/-- Decimal accumulation as done by `std::stoi` on the digit strings
the lexer produces for numeric literals. -/
def stoi_digits : List Char → Nat → Nat
  | [], acc => acc
  | c :: cs, acc => stoi_digits cs (acc * 10 + (c.toNat - 48))

/-- `std::stoi`, restricted to the (sign-free) digit strings the lexer
can emit as numeric-literal tokens. -/
def stoi (s : String) : Int :=
  Int.ofNat (stoi_digits s.data 0)

/-- `parser.cpp`, `parse_ast_literal`: numeric tokens with a dot become
float literals, others int; char/string literals keep their text. -/
def parse_ast_literal (l : Lexer) : Except String (AST_Expression × Lexer) :=
  match l.peek with
  | none => .error "NULL_DEREF"
  | some tok =>
    let lit :=
      if tok.type = TOKEN_NUMERIC_LITERAL then
        if tok.val.data.contains '.' then
          AST_Expression.literal T_FLOAT (LitVal.f tok.val)
        else
          AST_Expression.literal T_INT (LitVal.i (stoi tok.val))
      else if tok.type = TOKEN_CHAR_LITERAL then
        AST_Expression.literal T_CHAR (LitVal.c (tok.val.data.getD 0 nulChar))
      else
        AST_Expression.literal T_STRING (LitVal.s tok.val)
    let (tok2, l) := l.get_next_token
    match tok2 with
    | none => .error "SYNTAX ERROR: Missing delimiter at the end of the statement."
    | some _ => .ok (lit, l)

/-- `parser.cpp`, `parse_ast_function_call`, the separator-counting
loop: count `,` tokens before the closing `)`, erroring at token-vector
end. -/
def count_separators (fuel : Nat) (l : Lexer) (i : Nat) (num : Nat) :
    Except String Nat :=
  match fuel with
  | 0 => .error "OUT_OF_FUEL"
  | fuel + 1 =>
    match l.peek i with
    | none => .error "SYNTAX ERROR: Incomplete function call expression."
    | some tok =>
      if tok.type = TOKEN_SEPARATOR then count_separators fuel l (i + 1) (num + 1)
      else if tok.type = TOKEN_RIGHT_PAREN then .ok num
      else count_separators fuel l (i + 1) num

mutual

/-- `parser.cpp`, `parse_ast_block`: either a single statement or a
`{ … }` sequence of statements up to the matching `}`. -/
def parse_ast_block (fuel : Nat) (l : Lexer) :
    Except String (List AST_Expression × Lexer) :=
  match fuel with
  | 0 => .error "OUT_OF_FUEL"
  | fuel + 1 =>
    match l.peek with
    | none => .error "NULL_DEREF"
    | some tok0 =>
      if tok0.type ≠ TOKEN_LEFT_BRACE then
        match parse_ast_expression fuel l with
        | .error e => .error e
        | .ok (expr, l) => .ok ([expr], l)
      else
        let (tok, l) := l.get_next_token
        match tok with
        | none => .error "SYNTAX ERROR: Missing closing brace from scope."
        | some tok => parse_ast_block_loop fuel l tok []
termination_by structural fuel

/-- `parser.cpp`, `parse_ast_block`, the statement loop. -/
def parse_ast_block_loop (fuel : Nat) (l : Lexer) (tok : Token)
    (acc : List AST_Expression) :
    Except String (List AST_Expression × Lexer) :=
  match fuel with
  | 0 => .error "OUT_OF_FUEL"
  | fuel + 1 =>
    if tok.type = TOKEN_RIGHT_BRACE then .ok (acc, l)
    else
      match parse_ast_expression fuel l with
      | .error e => .error e
      | .ok (expr, l) =>
        let (tok2, l) := l.get_next_token
        match tok2 with
        | none => .error "SYNTAX ERROR: Missing closing brace from scope."
        | some tok2 => parse_ast_block_loop fuel l tok2 (acc ++ [expr])
termination_by structural fuel

/-- `parser.cpp`, `parse_ast_if_expression`. -/
def parse_ast_if_expression (fuel : Nat) (l : Lexer) :
    Except String (AST_Expression × Lexer) :=
  match fuel with
  | 0 => .error "OUT_OF_FUEL"
  | fuel + 1 =>
    let (tok, l) := l.get_next_token
    match tok with
    | none => .error "SYNTAX ERROR: Incomplete if statement encountered."
    | some tok =>
      if tok.type ≠ TOKEN_LEFT_PAREN then
        .error "SYNTAX ERROR: Missing left parenthesis from if statement condition."
      else
        let (tok, l) := l.get_next_token
        match tok with
        | none => .error "SYNTAX ERROR: Incomplete if statement encountered."
        | some tok =>
          if tok.type = TOKEN_KEYWORD then
            .error "SYNTAX ERROR: if condition cannot contain a keyword."
          else
            match parse_ast_subexpression fuel l PREC_MIN TOKEN_RIGHT_PAREN with
            | .error e => .error e
            | .ok (condition, l) =>
              let (tok, l) := l.get_next_token
              match tok with
              | none => .error "SYNTAX ERROR: Incomplete if statement encountered."
              | some _ =>
                match parse_ast_block fuel l with
                | .error e => .error e
                | .ok (block, l) =>
                  match l.peek_next_token with
                  | some tok2 =>
                    if tok2.val = "else" then
                      let l := l.move_to_next_token
                      let (tok3, l) := l.get_next_token
                      match tok3 with
                      | none => .error "SYNTAX ERROR: Incomplete else statement encountered."
                      | some _ =>
                        match parse_ast_block fuel l with
                        | .error e => .error e
                        | .ok (else_block, l) =>
                          .ok (AST_Expression.if_expr condition block else_block, l)
                    else .ok (AST_Expression.if_expr condition block [], l)
                  | none => .ok (AST_Expression.if_expr condition block [], l)
termination_by structural fuel

/-- `parser.cpp`, `parse_ast_for_expression`. -/
def parse_ast_for_expression (fuel : Nat) (l : Lexer) :
    Except String (AST_Expression × Lexer) :=
  match fuel with
  | 0 => .error "OUT_OF_FUEL"
  | fuel + 1 =>
    let (tok, l) := l.get_next_token
    match tok with
    | none => .error "SYNTAX ERROR: Incomplete for statement encountered."
    | some tok =>
      if tok.type ≠ TOKEN_LEFT_PAREN then
        .error "SYNTAX ERROR: Missing left parenthesis from for statement condition."
      else
        let (tok, l) := l.get_next_token
        match tok with
        | none => .error "SYNTAX ERROR: Incomplete for statement encountered."
        | some tok =>
          if tok.type = TOKEN_KEYWORD then
            .error "SYNTAX ERROR: for initialization cannot contain a keyword."
          else
            match (if tok.type ≠ TOKEN_DELIMITER then
                parse_ast_subexpression fuel l PREC_MIN TOKEN_DELIMITER
              else .ok (AST_Expression.null, l)) with
            | .error e => .error e
            | .ok (init, l) =>
              let (tok, l) := l.get_next_token
              match tok with
              | none => .error "SYNTAX ERROR: Incomplete for statement encountered."
              | some tok =>
                if tok.type = TOKEN_KEYWORD then
                  .error "SYNTAX ERROR: for condition cannot contain a keyword."
                else
                  match (if tok.type ≠ TOKEN_DELIMITER then
                      parse_ast_subexpression fuel l PREC_MIN TOKEN_DELIMITER
                    else .ok (AST_Expression.null, l)) with
                  | .error e => .error e
                  | .ok (condition, l) =>
                    let (tok, l) := l.get_next_token
                    match tok with
                    | none => .error "SYNTAX ERROR: Incomplete for statement encountered."
                    | some tok =>
                      if tok.type = TOKEN_KEYWORD then
                        .error "SYNTAX ERROR: for loop expression cannot contain a keyword."
                      else
                        match (if tok.type ≠ TOKEN_RIGHT_PAREN then
                            parse_ast_subexpression fuel l PREC_MIN TOKEN_RIGHT_PAREN
                          else .ok (AST_Expression.null, l)) with
                        | .error e => .error e
                        | .ok (increment, l) =>
                          let (tok, l) := l.get_next_token
                          match tok with
                          | none => .error "SYNTAX ERROR: Incomplete for statement encountered."
                          | some _ =>
                            match parse_ast_block fuel l with
                            | .error e => .error e
                            | .ok (block, l) =>
                              .ok (AST_Expression.for_expr init condition increment block, l)
termination_by structural fuel

/-- `parser.cpp`, `parse_ast_while_expression`. -/
def parse_ast_while_expression (fuel : Nat) (l : Lexer) :
    Except String (AST_Expression × Lexer) :=
  match fuel with
  | 0 => .error "OUT_OF_FUEL"
  | fuel + 1 =>
    let (tok, l) := l.get_next_token
    match tok with
    | none => .error "SYNTAX ERROR: Incomplete while statement encountered."
    | some tok =>
      if tok.type ≠ TOKEN_LEFT_PAREN then
        .error "SYNTAX ERROR: Missing left parenthesis from while statement condition."
      else
        let (tok, l) := l.get_next_token
        match tok with
        | none => .error "SYNTAX ERROR: Incomplete while statement encountered."
        | some tok =>
          if tok.type = TOKEN_KEYWORD then
            .error "SYNTAX ERROR: while condition cannot contain a keyword."
          else
            match parse_ast_subexpression fuel l PREC_MIN TOKEN_RIGHT_PAREN with
            | .error e => .error e
            | .ok (condition, l) =>
              let (tok, l) := l.get_next_token
              match tok with
              | none => .error "SYNTAX ERROR: Incomplete while statement encountered."
              | some _ =>
                match parse_ast_block fuel l with
                | .error e => .error e
                | .ok (block, l) =>
                  .ok (AST_Expression.while_expr condition block, l)
termination_by structural fuel

/-- `parser.cpp`, `parse_ast_return_expression`. -/
def parse_ast_return_expression (fuel : Nat) (l : Lexer) :
    Except String (AST_Expression × Lexer) :=
  match fuel with
  | 0 => .error "OUT_OF_FUEL"
  | fuel + 1 =>
    let (tok, l) := l.get_next_token
    match tok with
    | none => .error "SYNTAX ERROR: Incomplete return statement encountered."
    | some tok =>
      if tok.type = TOKEN_DELIMITER then
        .ok (AST_Expression.ret AST_Expression.null, l)
      else if tok.type = TOKEN_KEYWORD then
        .error "SYNTAX ERROR: return statement cannot contain another keyword."
      else
        match parse_ast_subexpression fuel l PREC_MIN TOKEN_DELIMITER with
        | .error e => .error e
        | .ok (expr, l) => .ok (AST_Expression.ret expr, l)

/-- `parser.cpp`, `parse_ast_function_call`: reads the callee name,
counts separators to pick each argument's stop token, then runs the
argument loop. -/
def parse_ast_function_call (fuel : Nat) (l : Lexer) :
    Except String (AST_Expression × Lexer) :=
  match fuel with
  | 0 => .error "OUT_OF_FUEL"
  | fuel + 1 =>
    match l.peek with
    | none => .error "NULL_DEREF"
    | some tok0 =>
      let function_name := tok0.val
      let (_, l) := l.get_next_token
      let (_, l) := l.get_next_token
      match count_separators (l.tokens.length + 2) l 0 0 with
      | .error e => .error e
      | .ok num_separators =>
        match parse_ast_function_call_args fuel l 0 num_separators [] with
        | .error e => .error e
        | .ok (args, l) => .ok (AST_Expression.func_call function_name args, l)
termination_by structural fuel

/-- `parser.cpp`, `parse_ast_function_call`, the argument loop.  The
source decrements `num_separators` inside the loop whose condition
re-reads it (`arg_num < num_separators + 1`), reproduced as-is. -/
def parse_ast_function_call_args (fuel : Nat) (l : Lexer) (arg_num : Nat)
    (num_separators : Int) (acc : List AST_Expression) :
    Except String (List AST_Expression × Lexer) :=
  match fuel with
  | 0 => .error "OUT_OF_FUEL"
  | fuel + 1 =>
    if (arg_num : Int) < num_separators + 1 then
      match parse_ast_subexpression fuel l PREC_MIN
          (if num_separators > 0 then TOKEN_SEPARATOR else TOKEN_RIGHT_PAREN) with
      | .error e => .error e
      | .ok (arg_expr, l) =>
        let l := l.move_to_next_token
        parse_ast_function_call_args fuel l (arg_num + 1) (num_separators - 1)
          (acc ++ [arg_expr])
    else .ok (acc, l)
termination_by structural fuel

/-- `parser.cpp`, `parse_ast_identifier`: a function call when the next
token is `(`, otherwise a plain identifier. -/
def parse_ast_identifier (fuel : Nat) (l : Lexer) :
    Except String (AST_Expression × Lexer) :=
  match fuel with
  | 0 => .error "OUT_OF_FUEL"
  | fuel + 1 =>
    match l.peek with
    | none => .error "NULL_DEREF"
    | some tok =>
      match l.peek_next_token with
      | none => .error "SYNTAX ERROR: Missing delimiter at the end of the statement."
      | some next =>
        if next.type = TOKEN_LEFT_PAREN then parse_ast_function_call fuel l
        else .ok (AST_Expression.ident tok.val, l.move_to_next_token)
termination_by structural fuel

/-- `parser.cpp`, `parse_ast_parenthesized_expression`. -/
def parse_ast_parenthesized_expression (fuel : Nat) (l : Lexer) :
    Except String (AST_Expression × Lexer) :=
  match fuel with
  | 0 => .error "OUT_OF_FUEL"
  | fuel + 1 =>
    let (tok, l) := l.get_next_token
    match tok with
    | none => .error "SYNTAX ERROR: Missing expression after left parenthesis."
    | some _ =>
      match parse_ast_subexpression fuel l PREC_MIN TOKEN_RIGHT_PAREN with
      | .error e => .error e
      | .ok (expr, l) =>
        let (tok2, l) := l.get_next_token
        match tok2 with
        | none => .error "SYNTAX ERROR: Missing delimiter at the end of the statement."
        | some _ => .ok (expr, l)
termination_by structural fuel

/-- `parser.cpp`, `parse_primary_subexpression`: dispatch on the token
kind (note: `TOKEN_BOOL_LITERAL` has no case and falls to the error). -/
def parse_primary_subexpression (fuel : Nat) (l : Lexer) (tok : Token) :
    Except String (AST_Expression × Lexer) :=
  match fuel with
  | 0 => .error "OUT_OF_FUEL"
  | fuel + 1 =>
    if tok.type = TOKEN_IDENTIFIER then parse_ast_identifier fuel l
    else if tok.type = TOKEN_DATA_TYPE then parse_ast_declaration l
    else if tok.type = TOKEN_CHAR_LITERAL ∨ tok.type = TOKEN_NUMERIC_LITERAL ∨
        tok.type = TOKEN_STRING_LITERAL then parse_ast_literal l
    else if tok.type = TOKEN_LEFT_PAREN then
      parse_ast_parenthesized_expression fuel l
    else .error "SYNTAX ERROR (Parser): Failed to parse primary expression."
termination_by structural fuel

/-- `parser.cpp`, `parse_decreasing_precedence`: splice the
already-built left operand into new Binary nodes while precedence does
not increase; on a strictly higher-precedence operator, recurse into
`parse_ast_subexpression` for the right subtree. -/
def parse_decreasing_precedence (fuel : Nat) (l : Lexer)
    (left : AST_Expression) (curr_precedence : Nat) (stops_at : Nat) :
    Except String (AST_Expression × Lexer) :=
  match fuel with
  | 0 => .error "OUT_OF_FUEL"
  | fuel + 1 =>
    match l.peek with
    | none => .error "SYNTAX ERROR: Invalid expression. Expected binary operator.1"
    | some tok =>
      if ¬ is_binary_op tok then
        .error "SYNTAX ERROR: Invalid expression. Expected binary operator.1"
      else
        let op1 := tok.type
        let (tok2, l) := l.get_next_token
        match tok2 with
        | none => .error "SYNTAX ERROR: Invalid expression. Expected identifier/literal."
        | some tok2 =>
          if op_prec tok2.type ≠ PREC_PRIMARY then
            .error "SYNTAX ERROR: Invalid expression. Expected identifier/literal."
          else
            match parse_primary_subexpression fuel l tok2 with
            | .error e => .error e
            | .ok (tok_expr, l) =>
              match l.peek with
              | none => .error "SYNTAX ERROR: Missing delimiter at the end of expression."
              | some op =>
                if op.type = stops_at then
                  .ok (AST_Expression.binary op1 left tok_expr, l)
                else if op.type = TOKEN_DELIMITER then
                  .error "SYNTAX ERROR: Invalid expression. Used delimiter in an expression that is not a statement."
                else if ¬ is_binary_op op then
                  .error "SYNTAX ERROR: Invalid expression. Expected binary operator.2"
                else
                  let new_prec := op_prec op.type
                  if new_prec > curr_precedence then
                    match parse_ast_subexpression fuel l new_prec stops_at with
                    | .error e => .error e
                    | .ok (right, l) =>
                      .ok (AST_Expression.binary op1 left right, l)
                  else
                    parse_decreasing_precedence fuel l
                      (AST_Expression.binary op1 left tok_expr) new_prec stops_at
termination_by structural fuel

/-- `parser.cpp`, `parse_ast_subexpression`, the spine-building loop.
`curr_left` is the `left` already stored in the current
`curr_expression`; the returned tree is the subtree rooted there (the
caller links it as the parent's right child, exactly as the source does
through `prev_expression->right`). -/
def parse_subexpression_loop (fuel : Nat) (l : Lexer)
    (curr_left : AST_Expression) (curr_precedence : Nat) (stops_at : Nat) :
    Except String (AST_Expression × Lexer) :=
  match fuel with
  | 0 => .error "OUT_OF_FUEL"
  | fuel + 1 =>
    match l.peek with
    | none => .error "SYNTAX ERROR: Invalid expression. Expected binary operator.3"
    | some tok =>
      if tok.type = stops_at then
        .ok (AST_Expression.binary TOKEN_NONE curr_left AST_Expression.null, l)
      else if tok.type = TOKEN_DELIMITER then
        .error "SYNTAX ERROR: Invalid expression. Used delimiter in an expression that is not a statement."
      else if ¬ is_binary_op tok then
        .error "SYNTAX ERROR: Invalid expression. Expected binary operator.3"
      else
        let op1 := tok.type
        let (tok2, l) := l.get_next_token
        match tok2 with
        | none => .error "SYNTAX ERROR: Invalid expression. Expected identifier/literal."
        | some tok2 =>
          if op_prec tok2.type ≠ PREC_PRIMARY then
            .error "SYNTAX ERROR: Invalid expression. Expected identifier/literal."
          else
            match parse_primary_subexpression fuel l tok2 with
            | .error e => .error e
            | .ok (tok_expr, l) =>
              match l.peek with
              | none => .error "SYNTAX ERROR: Missing delimiter at the end of expression."
              | some op =>
                if op.type = stops_at then
                  .ok (AST_Expression.binary op1 curr_left tok_expr, l)
                else if op.type = TOKEN_DELIMITER then
                  .error "SYNTAX ERROR: Invalid expression. Used delimiter in an expression that is not a statement."
                else if ¬ is_binary_op op then
                  .error "SYNTAX ERROR: Invalid expression. Expected binary operator.4"
                else
                  let new_prec := op_prec op.type
                  if new_prec < curr_precedence then
                    parse_decreasing_precedence fuel l
                      (AST_Expression.binary op1 curr_left tok_expr) new_prec stops_at
                  else
                    match parse_subexpression_loop fuel l tok_expr new_prec stops_at with
                    | .error e => .error e
                    | .ok (rest, l) =>
                      .ok (AST_Expression.binary op1 curr_left rest, l)
termination_by structural fuel

/-- `parser.cpp`, `parse_ast_subexpression`: parse a primary operand,
then run the precedence loop (`NULL` — here `.null` — when the first
token is already the stop token). -/
def parse_ast_subexpression (fuel : Nat) (l : Lexer)
    (curr_precedence : Nat) (stops_at : Nat) :
    Except String (AST_Expression × Lexer) :=
  match fuel with
  | 0 => .error "OUT_OF_FUEL"
  | fuel + 1 =>
    match l.peek with
    | none => .error "SYNTAX ERROR: Missing delimiter at the end of the statement."
    | some tok =>
      if tok.type = stops_at then .ok (AST_Expression.null, l)
      else if tok.type = TOKEN_DELIMITER then
        .error "SYNTAX ERROR: Invalid expression. Used delimiter in an expression that is not a statement."
      else if op_prec tok.type ≠ PREC_PRIMARY then
        .error "SYNTAX ERROR: Invalid expression. Expected identifier/literal."
      else
        match parse_primary_subexpression fuel l tok with
        | .error e => .error e
        | .ok (tok_expr, l) =>
          parse_subexpression_loop fuel l tok_expr curr_precedence stops_at
termination_by structural fuel

/-- `parser.cpp`, `parse_ast_expression`: keyword statements dispatch
to their parsers; everything else is an expression statement. -/
def parse_ast_expression (fuel : Nat) (l : Lexer) :
    Except String (AST_Expression × Lexer) :=
  match fuel with
  | 0 => .error "OUT_OF_FUEL"
  | fuel + 1 =>
    match l.peek with
    | none => .error "NULL_DEREF"
    | some tok =>
      if tok.type = TOKEN_KEYWORD then
        if tok.val = "if" then parse_ast_if_expression fuel l
        else if tok.val = "for" then parse_ast_for_expression fuel l
        else if tok.val = "while" then parse_ast_while_expression fuel l
        else if tok.val = "return" then parse_ast_return_expression fuel l
        else if tok.val = "break" then parse_ast_jump_expression l "break"
        else if tok.val = "continue" then parse_ast_jump_expression l "continue"
        else .error "SYNTAX ERROR: Keyword could not be parsed."
      else parse_ast_subexpression fuel l PREC_MIN TOKEN_DELIMITER
termination_by structural fuel

end

/-- `parser.cpp`, `parse_ast_function_params`, the parameter loop.
`tok` is the token the loop is currently looking at. -/
def parse_function_params_loop (fuel : Nat) (l : Lexer) (tok : Token)
    (acc : List Function_Parameter) :
    Except String (List Function_Parameter × Lexer) :=
  match fuel with
  | 0 => .error "OUT_OF_FUEL"
  | fuel + 1 =>
    if tok.type = TOKEN_RIGHT_PAREN then .ok (acc, l)
    else if tok.type ≠ TOKEN_DATA_TYPE then
      .error "SYNTAX ERROR: Invalid data type for function parameter."
    else
      let param_type := type_map tok.val
      let (tok2, l) := l.get_next_token
      match tok2 with
      | none => .error "SYNTAX ERROR: Insufficient tokens for function definition."
      | some tok2 =>
        if tok2.type ≠ TOKEN_IDENTIFIER then
          .error "SYNTAX ERROR: Invalid identifier for function parameter."
        else
          let acc := acc ++ [⟨tok2.val, param_type⟩]
          let (tok3, l) := l.get_next_token
          match tok3 with
          | none => .error "SYNTAX ERROR: Insufficient tokens for function definition."
          | some tok3 =>
            if tok3.type = TOKEN_SEPARATOR then
              let (tok4, l) := l.get_next_token
              match tok4 with
              | none => .error "SYNTAX ERROR: Insufficient tokens for function definition."
              | some tok4 => parse_function_params_loop fuel l tok4 acc
            else if tok3.type = TOKEN_RIGHT_PAREN then .ok (acc, l)
            else .error "SYNTAX ERROR: Missing separator in function parameters."

/-- `parser.cpp`, `parse_ast_function_params`: assumes the current
token is `(` and reads `<type> <name>` pairs up to `)`. -/
def parse_ast_function_params (fuel : Nat) (l : Lexer) :
    Except String (List Function_Parameter × Lexer) :=
  let (tok, l) := l.get_next_token
  match tok with
  | none => .error "SYNTAX ERROR: Insufficient tokens for function definition."
  | some tok => parse_function_params_loop fuel l tok []

/-- `parser.cpp`, `parse_ast_function`: `<return_type> <name> ( params )
<block>`.  Note for claim C5: nothing here inspects the function name —
in particular a function named `main` is treated like any other, and
`lexer->entry_point_found` is never assigned. -/
def parse_ast_function (fuel : Nat) (l : Lexer) :
    Except String (AST_Expression × Lexer) :=
  match fuel with
  | 0 => .error "OUT_OF_FUEL"
  | fuel + 1 =>
    match l.peek with
    | none => .error "NULL_DEREF"
    | some tok_return_type =>
      if tok_return_type.type ≠ TOKEN_DATA_TYPE then
        .error "SYNTAX ERROR: Invalid return type for function definition."
      else
        let return_type := type_map tok_return_type.val
        let (tok_name, l) := l.get_next_token
        match tok_name with
        | none => .error "SYNTAX ERROR: Insufficient tokens for function definition."
        | some tok_name =>
          if tok_name.type ≠ TOKEN_IDENTIFIER then
            .error "SYNTAX ERROR: Invalid identifier used in function definition."
          else
            let function_name := tok_name.val
            let (tok_left_paren, l) := l.get_next_token
            match tok_left_paren with
            | none => .error "SYNTAX ERROR: Insufficient tokens for function definition."
            | some tok_left_paren =>
              if tok_left_paren.type ≠ TOKEN_LEFT_PAREN then
                .error "SYNTAX ERROR: Missing left parenthesis in function definition."
              else
                match parse_ast_function_params fuel l with
                | .error e => .error e
                | .ok (params, l) =>
                  let (tok, l) := l.get_next_token
                  match tok with
                  | none => .error "SYNTAX ERROR: Function definition must be followed by a statement."
                  | some _ =>
                    match parse_ast_block fuel l with
                    | .error e => .error e
                    | .ok (block, l) =>
                      .ok (AST_Expression.func_def return_type function_name
                        params false block, l)

/-- `parser.cpp`, `parse_tokens`, the do-while loop over top-level
function definitions. -/
def parse_tokens_loop (fuel : Nat) (l : Lexer) (acc : List AST_Expression) :
    Except String (List AST_Expression × Lexer) :=
  match fuel with
  | 0 => .error "OUT_OF_FUEL"
  | fuel + 1 =>
    match parse_ast_function fuel l with
    | .error e => .error e
    | .ok (ast_function, l) =>
      let acc := acc ++ [ast_function]
      let (tok, l) := l.get_next_token
      match tok with
      | none => .ok (acc, l)
      | some _ => parse_tokens_loop fuel l acc

/-- `parser.cpp`, `parse_tokens`: the parser entry point.  At the top
level only function definitions are recognised (the snapshot's `TODO:
Handle global variables`), and the lexer artifact — including its
`entry_point_found` flag — is only read through the token cursor, never
written. -/
def parse_tokens (fuel : Nat) (l : Lexer) :
    Except String (List AST_Expression × Lexer) :=
  if l.tokens.length = 0 then .error "ERROR: No tokens found."
  else parse_tokens_loop fuel l []

/-! ## The LLVM collaborator model (`llvm.h` interface, as consumed by
`ir_generator.h` / `ir_generator.cpp`)

The emitter uses a small slice of the IR-builder API.  The model:

* A `BasicBlock` is an id, a name, and its instruction list; the
  state's `blocks` list holds the blocks of the function currently
  being emitted, in creation order (`getEntryBlock` is its head, as
  the entry block is always created first).  `BasicBlock::insertInto`
  on an already-parented block only affects the function's block-list
  ordering, which nothing here observes; it is a no-op in the model.
* Every emitted instruction gets a fresh result id from `next_val`;
  an `instr_ref` value is a use of that SSA result.  A `GlobalVariable`
  value carries its content type (its LLVM value type is the pointer).
* `CreatePHI` followed by the two `addIncoming` calls is modelled as
  emitting the phi with its incoming list.
* The builder is modelled without constant folding: `CreateICmpNE` on
  two constants emits the compare instruction instead of folding it —
  the same value flows to the same consumers either way, and no claim
  below depends on folding.
* `Create*` with no insertion block set, and the dereference
  `GetInsertBlock()->getParent()`, crash in C++; both are the error
  `"LLVM: no insertion block"`.
* `verifyFunction` / `verifyModule` are external checkers whose inner
  workings are out of scope; the model treats them as succeeding
  (none of the claims is about the verifier's verdict).
-/

/-- The LLVM types the emitter uses (`llvm_type_map`'s range plus
pointers). -/
inductive LLVMType where
  | i1 | i8 | i32 | f32 | void
  | ptr (pointee : LLVMType)
  deriving Repr, DecidableEq

open LLVMType

/-- `ir_generator.h`, `llvm_type_map`: `nullptr` (here `none`) for the
`default` case. -/
def llvm_type_map (type : Data_Type) : Option LLVMType :=
  match type with
  | T_INT => some i32
  | T_FLOAT => some f32
  | T_BOOL => some i1
  | T_CHAR => some i8
  | T_STRING => some (ptr i8)
  | T_VOID => some LLVMType.void
  | T_UNIDENTIFIED => none

/-- An LLVM value as the emitter sees one. -/
inductive LLVMValue where
  | const_int (ty : LLVMType) (n : Int)
  | const_fp (ty : LLVMType) (raw : String)
  | const_null_ptr (ty : LLVMType)
  | global_var (name : String) (content_ty : LLVMType)
  | global_string (str : String)
  | func_ref (name : String)
  | arg_ref (name : String) (ty : LLVMType)
  | instr_ref (id : Nat) (ty : LLVMType)
  deriving Repr, DecidableEq

open LLVMValue

/-- `Value::getType()`. A global's value type is the pointer to its
content; a function's is modelled as a pointer to `void` (never
inspected by the emitter). -/
def LLVMValue.getType : LLVMValue → LLVMType
  | const_int ty _ => ty
  | const_fp ty _ => ty
  | const_null_ptr ty => ty
  | global_var _ content_ty => ptr content_ty
  | global_string _ => ptr i8
  | func_ref _ => ptr LLVMType.void
  | arg_ref _ ty => ty
  | instr_ref _ ty => ty

/-- `Type::isIntegerTy()`. -/
def LLVMType.isIntegerTy : LLVMType → Bool
  | i1 | i8 | i32 => true
  | _ => false

/-- `Type::isPointerTy()`. -/
def LLVMType.isPointerTy : LLVMType → Bool
  | ptr _ => true
  | _ => false

/-- `Type::isFloatingPointTy()`. -/
def LLVMType.isFloatingPointTy : LLVMType → Bool
  | f32 => true
  | _ => false

/-- The instruction forms the emitter produces.  Two-operand
arithmetic/bitwise ops share the `binop` form with their LLVM opcode
name; comparisons share `icmp`/`fcmp` with their condition code. -/
inductive Instruction where
  | binop (opcode : String) (a b : LLVMValue) (name : String)
  | icmp (cond : String) (a b : LLVMValue) (name : String)
  | fcmp (cond : String) (a b : LLVMValue) (name : String)
  | load (ty : LLVMType) (addr : LLVMValue) (name : String)
  | store (v : LLVMValue) (addr : LLVMValue)
  | alloca (ty : LLVMType) (name : String)
  | br (dest : Nat)
  | cond_br (cond : LLVMValue) (then_dest else_dest : Nat)
  | phi (ty : LLVMType) (incoming : List (LLVMValue × Nat)) (name : String)
  | call (callee : String) (args : List LLVMValue) (name : String)
  | ret_val (v : LLVMValue)
  | ret_void
  | int_cast (v : LLVMValue) (ty : LLVMType) (is_signed : Bool) (name : String)
  deriving Repr, DecidableEq

/-- A basic block: id, name, and emitted instructions (each with its
SSA result id). -/
structure BasicBlock where
  id : Nat
  name : String
  instrs : List (Nat × Instruction)
  deriving Repr, DecidableEq

/-- `ir_generator.h`, `struct LLVM_Symbol_Info`. -/
structure LLVM_Symbol_Info where
  val : LLVMValue
  type : LLVMType
  deriving Repr, DecidableEq

/-- `ir_generator.h`, `struct Loop_Terminals` (block ids). -/
structure Loop_Terminals where
  loop_condition : Nat
  loop_end : Nat
  deriving Repr, DecidableEq

/-- A function present in the module, as `Module::getFunction` sees it. -/
structure ModuleFunction where
  name : String
  return_type : LLVMType
  param_types : List LLVMType
  deriving Repr, DecidableEq

/-- The emitter state: the builder (insertion point and fresh-id
counters), the blocks of the function currently being emitted, the
process-wide `llvm_symbol_table` and `loop_terminals`
(`ir_generator.cpp` globals; the stack's top is the list head), the
module's functions, and the current function's declared return type
(`GetInsertBlock()->getParent()->getReturnType()`). -/
structure IRState where
  blocks : List BasicBlock := []
  insert_point : Option Nat := none
  next_block : Nat := 0
  next_val : Nat := 0
  llvm_symbol_table : smap LLVM_Symbol_Info := smap.empty
  loop_terminals : List Loop_Terminals := []
  module_functions : List ModuleFunction := []
  function_return_type : LLVMType := LLVMType.void
  deriving Repr, DecidableEq

/-- `BasicBlock::Create(ctx, name, f)`: a fresh block appended to the
current function. -/
def IRState.create_block (s : IRState) (name : String) : Nat × IRState :=
  (s.next_block,
   { s with blocks := s.blocks ++ [⟨s.next_block, name, []⟩],
            next_block := s.next_block + 1 })

/-- `builder->SetInsertPoint(bb)`. -/
def IRState.set_insert_point (s : IRState) (b : Nat) : IRState :=
  { s with insert_point := some b }

/-- Append an instruction at the insertion point, returning its fresh
result id; crashes (errors) when no insertion block is set, as the C++
builder would. -/
def IRState.emit (s : IRState) (i : Instruction) : Except String (Nat × IRState) :=
  match s.insert_point with
  | none => .error "LLVM: no insertion block"
  | some b =>
    .ok (s.next_val,
      { s with
          blocks := s.blocks.map (fun blk =>
            if blk.id = b then { blk with instrs := blk.instrs ++ [(s.next_val, i)] }
            else blk),
          next_val := s.next_val + 1 })

/-- The `tmp_builder` pattern: insert an `alloca` at the *beginning* of
the function's entry block (`f->getEntryBlock()`, the first block). -/
def IRState.emit_alloca_at_entry (s : IRState) (ty : LLVMType) (name : String) :
    Except String (LLVMValue × IRState) :=
  match s.blocks with
  | [] => .error "LLVM: no insertion block"
  | entry :: rest =>
    .ok (instr_ref s.next_val (ptr ty),
      { s with
          blocks := { entry with
            instrs := (s.next_val, Instruction.alloca ty name) :: entry.instrs } :: rest,
          next_val := s.next_val + 1 })

/-- `Module::getFunction(name)`. -/
def IRState.getFunction (s : IRState) (name : String) : Option ModuleFunction :=
  s.module_functions.find? (fun f => f.name = name)

/-- The block with the given id (used by theorems to inspect results;
blocks have unique ids by construction). -/
def IRState.block_named (s : IRState) (id : Nat) : Option BasicBlock :=
  s.blocks.find? (fun blk => blk.id = id)

/-- Consecutive result ids for a straight-line run of instructions
whose first result id is `n`. -/
def tag_from (n : Nat) (ins : List Instruction) : List (Nat × Instruction) :=
  ins.enum.map (fun p => (n + p.1, p.2))

/-- The builder's net effect of a straight-line emission into block
`b`: the instructions are appended there with consecutive fresh result
ids, and nothing else changes. -/
def IRState.append_instrs (s : IRState) (b : Nat) (ins : List Instruction) : IRState :=
  { s with
    blocks := s.blocks.map (fun blk => if blk.id = b then
        { blk with instrs := blk.instrs ++ tag_from s.next_val ins } else blk),
    next_val := s.next_val + ins.length }

/-- `ir_generator.h`, `cast_llvm_value_to_bool`: i1 passes through,
other integers compare `!= 0`, floats `!= 0.0`, pointers `!= null`,
anything else is a fatal diagnostic. -/
def cast_llvm_value_to_bool (s : IRState) (val : LLVMValue) :
    Except String (LLVMValue × IRState) :=
  if val.getType = i1 then .ok (val, s)
  else if val.getType.isIntegerTy then
    match s.emit (Instruction.icmp "ne" val (const_int val.getType 0) "tobool") with
    | .error e => .error e
    | .ok (id, s) => .ok (instr_ref id i1, s)
  else if val.getType.isFloatingPointTy then
    match s.emit (Instruction.fcmp "one" val (const_fp val.getType "0.0") "tobool") with
    | .error e => .error e
    | .ok (id, s) => .ok (instr_ref id i1, s)
  else if val.getType.isPointerTy then
    match s.emit (Instruction.icmp "ne" val (const_null_ptr val.getType) "tobool") with
    | .error e => .error e
    | .ok (id, s) => .ok (instr_ref id i1, s)
  else .error "Non-integer type in logical expression."

/-! ## The IR emitter (`ir_generator.h`, `ir_generator.cpp`)

A direct translation of the `generate_ir` family.  `nullptr` results
(`llvm::Value*`) are `none`; `throw_ir_error` (which prints and
`exit(1)`s) is `Except.error` with the source's message; calling
`generate_ir` through a null AST pointer, or reading a type off a null
LLVM value, is the distinguished `"NULL_DEREF"` error. -/

/-- Union reads of `AST_Literal::value`.  Each accessor is only ever
applied to the variant that populated the union (the parser pairs the
payload with the literal's type); the default arms are arbitrary. -/
def LitVal.as_bool : LitVal → Bool
  | .b v => v
  | _ => false

def LitVal.as_int : LitVal → Int
  | .i n => n
  | _ => 0

def LitVal.as_char_code : LitVal → Int
  | .c ch => (ch.toNat : Int)
  | _ => 0

def LitVal.as_float_raw : LitVal → String
  | .f raw => raw
  | _ => "0.0"

def LitVal.as_string : LitVal → String
  | .s str => str
  | _ => ""

/-- `ast.h` discriminator check `if (expr)` against the null pointer. -/
def AST_Expression.is_null : AST_Expression → Bool
  | .null => true
  | _ => false

/-- `ir_generator.cpp`, `AST_Identifier::generate_ir_pointer`: the
stored address of the identifier, without a load. -/
def generate_ir_pointer (s : IRState) (name : String) :
    Except String LLVMValue :=
  match s.llvm_symbol_table.get name with
  | none => .error "Undefined identifier encountered."
  | some sym_info => .ok sym_info.val

/-- `ir_generator.cpp`, `AST_Binary_Expression::generate_ir`, the
compound-assignment `switch`: LLVM opcode and instruction name per
token, `none` for the `default:` case. -/
def compound_assign_opcode (op : Nat) : Option (String × String) :=
  if op = TOKEN_PLUSEQ then some ("add", "addtmp")
  else if op = TOKEN_MINUSEQ then some ("sub", "subtmp")
  else if op = TOKEN_MULTIPLYEQ then some ("mul", "multmp")
  else if op = TOKEN_DIVIDEEQ then some ("sdiv", "divtmp")
  else if op = TOKEN_MODEQ then some ("srem", "modtmp")
  else if op = TOKEN_LSHIFT_EQ then some ("shl", "lshtmp")
  else if op = TOKEN_RSHIFT_EQ then some ("ashr", "rshtmp")
  else if op = TOKEN_ANDEQ then some ("and", "andtmp")
  else if op = TOKEN_OREQ then some ("or", "ortmp")
  else if op = TOKEN_BIT_ANDEQ then some ("and", "andtmp")
  else if op = TOKEN_BIT_OREQ then some ("or", "ortmp")
  else if op = TOKEN_XOREQ then some ("xor", "xortmp")
  else none

/-- `ir_generator.cpp`, `AST_Binary_Expression::generate_ir`, the
plain two-operand `switch`: the emitted instruction and its result
type, `none` for the `default:` case (which returns `nullptr`). -/
def plain_binary_instruction (op : Nat) (Lval Rval : LLVMValue) :
    Option (Instruction × LLVMType) :=
  if op = TOKEN_PLUS then some (.binop "add" Lval Rval "addtmp", Lval.getType)
  else if op = TOKEN_MINUS then some (.binop "sub" Lval Rval "subtmp", Lval.getType)
  else if op = TOKEN_STAR then some (.binop "mul" Lval Rval "multmp", Lval.getType)
  else if op = TOKEN_DIVIDE then some (.binop "sdiv" Lval Rval "divtmp", Lval.getType)
  else if op = TOKEN_MOD then some (.binop "srem" Lval Rval "modtmp", Lval.getType)
  else if op = TOKEN_LESS then some (.icmp "slt" Lval Rval "cmptmp", i1)
  else if op = TOKEN_GREATER then some (.icmp "sgt" Lval Rval "cmptmp", i1)
  else if op = TOKEN_LESSEQ then some (.icmp "sle" Lval Rval "cmptmp", i1)
  else if op = TOKEN_GREATEREQ then some (.icmp "sge" Lval Rval "cmptmp", i1)
  else if op = TOKEN_EQUAL then some (.icmp "eq" Lval Rval "cmptmp", i1)
  else if op = TOKEN_NOTEQ then some (.icmp "ne" Lval Rval "cmptmp", i1)
  else if op = TOKEN_LSHIFT then some (.binop "shl" Lval Rval "lshtmp", Lval.getType)
  else if op = TOKEN_RSHIFT then some (.binop "ashr" Lval Rval "rshtmp", Lval.getType)
  else if op = TOKEN_BIT_OR then some (.binop "or" Lval Rval "ortmp", Lval.getType)
  else if op = TOKEN_XOR then some (.binop "xor" Lval Rval "xortmp", Lval.getType)
  else if op = TOKEN_AMPERSAND then some (.binop "and" Lval Rval "andtmp", Lval.getType)
  else none

/-- The `if (v && v->getType()->isPointerTy()) v = CreateLoad(
dyn_cast<PointerType>(v->getType()), v)` pattern (the *pointer type
itself* is passed as the loaded type, exactly as the source does). -/
def load_if_pointer (s : IRState) (v : LLVMValue) :
    Except String (LLVMValue × IRState) :=
  if v.getType.isPointerTy then
    match s.emit (.load v.getType v "") with
    | .error err => .error err
    | .ok (id, s) => .ok (instr_ref id v.getType, s)
  else .ok (v, s)

/-- `ir_generator.cpp`, `AST_Function_Definition::generate_ir`, the
per-parameter loop: prepend the alloca in the entry block, store the
incoming argument, register the slot in the symbol table. -/
def emit_function_params (s : IRState) (params : List Function_Parameter) :
    Except String IRState :=
  match params with
  | [] => .ok s
  | p :: rest =>
    match llvm_type_map p.type with
    | none => .error "NULL_DEREF"
    | some arg_ty =>
      match s.emit_alloca_at_entry arg_ty p.name with
      | .error err => .error err
      | .ok (alloca_val, s) =>
        match s.emit (.store (arg_ref p.name arg_ty) alloca_val) with
        | .error err => .error err
        | .ok (_, s) =>
          let s := { s with llvm_symbol_table :=
            s.llvm_symbol_table.insert p.name ⟨alloca_val, arg_ty⟩ }
          emit_function_params s rest


/-- Emit an instruction whose SSA result the caller discards (the
`builder->CreateBr(...)` / `CreateStore(...)` statement pattern). -/
def IRState.emit_discard (s : IRState) (i : Instruction) : Except String IRState :=
  match s.emit i with
  | .error err => .error err
  | .ok (_, s) => .ok s

mutual

/-- The `generate_ir` dispatch over all AST variants
(`ir_generator.cpp`). -/
def generate_ir (fuel : Nat) (s : IRState) (e : AST_Expression) :
    Except String (Option LLVMValue × IRState) :=
  match fuel with
  | 0 => .error "OUT_OF_FUEL"
  | fuel + 1 =>
    match e with
    | .null => .error "NULL_DEREF"
    | .ident name =>
      match s.llvm_symbol_table.get name with
      | none => .error "Undefined identifier encountered."
      | some sym_info =>
        match s.emit (.load sym_info.type sym_info.val name) with
        | .error err => .error err
        | .ok (id, s) => .ok (some (instr_ref id sym_info.type), s)
    | .literal ty v =>
      match ty with
      | T_BOOL => .ok (some (const_int i1 (if v.as_bool then 1 else 0)), s)
      | T_INT => .ok (some (const_int i32 v.as_int), s)
      | T_FLOAT => .ok (some (const_fp f32 v.as_float_raw), s)
      | T_CHAR => .ok (some (const_int i8 v.as_char_code), s)
      | T_STRING =>
        match s.insert_point with
        | none => .ok (some (global_var ".str" i8), s)
        | some _ => .ok (some (global_string v.as_string), s)
      | _ => .error "Unidentified literal type encountered."
    | .func_def return_type function_name params is_prototype block =>
      match llvm_type_map return_type with
      | none => .error "NULL_DEREF"
      | some llvm_return_type =>
        match params.mapM (fun p => llvm_type_map p.type) with
        | none => .error "NULL_DEREF"
        | some llvm_param_types =>
          let s := { s with module_functions := s.module_functions ++
            [⟨function_name, llvm_return_type, llvm_param_types⟩] }
          if is_prototype then .ok (some (func_ref function_name), s)
          else
            let s := { s with blocks := [], function_return_type := llvm_return_type }
            let (function_entry, s) := s.create_block "entry"
            let s := s.set_insert_point function_entry
            match emit_function_params s params with
            | .error err => .error err
            | .ok s =>
              match generate_block_ir fuel s block with
              | .error err => .error err
              | .ok (has_return_expression_in_block, s) =>
                if ¬ has_return_expression_in_block ∧ llvm_return_type = LLVMType.void then
                  match s.emit_discard .ret_void with
                  | .error err => .error err
                  | .ok s => .ok (some (func_ref function_name), s)
                else .ok (some (func_ref function_name), s)
    | .if_expr condition block else_block =>
      match generate_ir fuel s condition with
      | .error err => .error err
      | .ok (none, s) => .ok (none, s)
      | .ok (some c0, s) =>
        match s.emit (.icmp "ne" c0 (const_int c0.getType 0) "ifcond") with
        | .error err => .error err
        | .ok (cid, s) =>
          let c := instr_ref cid i1
          match s.insert_point with
          | none => .error "(FATAL) Cannot find parent IR block for if statement."
          | some _ =>
            let (bthen, s) := s.create_block "then"
            let (belse, s) := s.create_block "else"
            let (bifend, s) := s.create_block "ifend"
            match s.emit_discard (.cond_br c bthen belse) with
            | .error err => .error err
            | .ok s =>
              let s := s.set_insert_point bthen
              match generate_block_ir fuel s block with
              | .error err => .error err
              | .ok (has_ret_then, s) =>
                match (if has_ret_then then Except.ok s
                       else s.emit_discard (.br bifend)) with
                | .error err => .error err
                | .ok s =>
                  -- source line 221: the else side emits `block` again
                  -- (not `else_block`; `else_block` is never read here)
                  let s := s.set_insert_point belse
                  match generate_block_ir fuel s block with
                  | .error err => .error err
                  | .ok (has_ret_else, s) =>
                    match (if has_ret_else then Except.ok s
                           else s.emit_discard (.br bifend)) with
                    | .error err => .error err
                    | .ok s => .ok (none, s.set_insert_point bifend)
    | .for_expr init condition increment block =>
      match s.insert_point with
      | none => .error "(FATAL) Cannot find parent IR block for for statement."
      | some _ =>
        match (if init.is_null then Except.ok ((none : Option LLVMValue), s)
               else generate_ir fuel s init) with
        | .error err => .error err
        | .ok (_, s) =>
          let (bforcond, s) := s.create_block "forcond"
          let (bforbody, s) := s.create_block "forbody"
          let (bforinc, s) := s.create_block "forinc"
          let (bforend, s) := s.create_block "forend"
          match s.emit_discard (.br bforcond) with
          | .error err => .error err
          | .ok s =>
            let s := s.set_insert_point bforcond
            match (if condition.is_null then Except.ok ((none : Option LLVMValue), s)
                   else generate_ir fuel s condition) with
            | .error err => .error err
            | .ok (cond0, s) =>
              let cres : Except String (LLVMValue × IRState) :=
                match cond0 with
                | some c0 =>
                  (match s.emit (.icmp "ne" c0 (const_int c0.getType 0) "forcond") with
                   | .error err => Except.error err
                   | .ok (cid, s) => Except.ok (instr_ref cid i1, s))
                | none => Except.ok (const_int i1 1, s)
              match cres with
              | .error err => .error err
              | .ok (c, s) =>
                match s.emit_discard (.cond_br c bforbody bforend) with
                | .error err => .error err
                | .ok s =>
                  let s := { s with loop_terminals :=
                    (⟨bforcond, bforend⟩ : Loop_Terminals) :: s.loop_terminals }
                  let s := s.set_insert_point bforbody
                  match generate_block_ir fuel s block with
                  | .error err => .error err
                  | .ok (has_ret, s) =>
                    match (if has_ret then Except.ok s
                           else s.emit_discard (.br bforinc)) with
                    | .error err => .error err
                    | .ok s =>
                      let s := s.set_insert_point bforinc
                      match (if increment.is_null then
                               Except.ok ((none : Option LLVMValue), s)
                             else generate_ir fuel s increment) with
                      | .error err => .error err
                      | .ok (_, s) =>
                        match s.emit_discard (.br bforcond) with
                        | .error err => .error err
                        | .ok s =>
                          let s := s.set_insert_point bforend
                          let s := { s with loop_terminals := s.loop_terminals.tail }
                          .ok (none, s)
    | .while_expr condition block =>
      match s.insert_point with
      | none => .error "(FATAL) Cannot find parent IR block for while statement."
      | some _ =>
        let (bwhilecond, s) := s.create_block "whilecond"
        let (bbody, s) := s.create_block "whilebody"
        let (bwhileend, s) := s.create_block "whileend"
        match s.emit_discard (.br bwhilecond) with
        | .error err => .error err
        | .ok s =>
          let s := s.set_insert_point bwhilecond
          match generate_ir fuel s condition with
          | .error err => .error err
          | .ok (none, s) => .ok (none, s)
          | .ok (some c0, s) =>
            match s.emit (.icmp "ne" c0 (const_int c0.getType 0) "whilecond") with
            | .error err => .error err
            | .ok (cid, s) =>
              let s := { s with loop_terminals :=
                (⟨bwhilecond, bwhileend⟩ : Loop_Terminals) :: s.loop_terminals }
              match s.emit_discard (.cond_br (instr_ref cid i1) bbody bwhileend) with
              | .error err => .error err
              | .ok s =>
                let s := s.set_insert_point bbody
                match generate_block_ir fuel s block with
                | .error err => .error err
                | .ok (has_ret, s) =>
                  match (if has_ret then Except.ok s
                         else s.emit_discard (.br bwhilecond)) with
                  | .error err => .error err
                  | .ok s =>
                    let s := s.set_insert_point bwhileend
                    let s := { s with loop_terminals := s.loop_terminals.tail }
                    .ok (none, s)
    | .decl data_type variable_name =>
      match s.insert_point with
      | none => .error "(FATAL) Cannot find parent IR block for declaration."
      | some _ =>
        match llvm_type_map data_type with
        | none => .error "NULL_DEREF"
        | some var_type =>
          match s.emit_alloca_at_entry var_type variable_name with
          | .error err => .error err
          | .ok (alloca_val, s) =>
            let s := { s with llvm_symbol_table :=
              s.llvm_symbol_table.insert variable_name ⟨alloca_val, var_type⟩ }
            .ok (some alloca_val, s)
    | .unary op postfix_flag expr =>
      if op = TOKEN_NOT then
        match generate_ir fuel s expr with
        | .error err => .error err
        | .ok (none, _) => .error "NULL_DEREF"
        | .ok (some val, s) =>
          match s.emit (.icmp "eq" val (const_int val.getType 0) "nottmp") with
          | .error err => .error err
          | .ok (id, s) => .ok (some (instr_ref id i1), s)
      else if op = TOKEN_BIT_NOT then
        match generate_ir fuel s expr with
        | .error err => .error err
        | .ok (none, _) => .error "NULL_DEREF"
        | .ok (some val, s) =>
          match s.emit (.binop "xor" val (const_int val.getType (-1)) "bnot") with
          | .error err => .error err
          | .ok (id, s) => .ok (some (instr_ref id val.getType), s)
      else if op = TOKEN_INCREMENT ∨ op = TOKEN_DECREMENT then
        match expr with
        | .ident nm =>
          match generate_ir_pointer s nm with
          | .error err => .error err
          | .ok val_addr =>
            match generate_ir fuel s (.ident nm) with
            | .error err => .error err
            | .ok (none, _) => .error "NULL_DEREF"
            | .ok (some val0, s) =>
              match load_if_pointer s val0 with
              | .error err => .error err
              | .ok (val, s) =>
                let delta : Int := if op = TOKEN_INCREMENT then 1 else -1
                match s.emit (.binop "add" val (const_int val.getType delta) "incdec") with
                | .error err => .error err
                | .ok (nid, s) =>
                  let new_val := instr_ref nid val.getType
                  match s.emit_discard (.store new_val val_addr) with
                  | .error err => .error err
                  | .ok s =>
                    .ok (some (if postfix_flag then val else new_val), s)
        | _ => .error "Cannot increment/decrement a non-lvalue expression)."
      else .error "Invalid unary operator encountered."
    | .binary op left right =>
      if op = TOKEN_AND then generate_ir__logical_and fuel s left right
      else if op = TOKEN_OR then generate_ir__logical_or fuel s left right
      else
        match (match left with
          | .null => Except.ok ((none : Option LLVMValue), s)
          | .ident nm =>
            (match generate_ir_pointer s nm with
             | .error err => Except.error err
             | .ok v => Except.ok (some v, s))
          | lhs => generate_ir fuel s lhs) with
        | .error err => .error err
        | .ok (Lopt, s) =>
          match (match right with
            | .null => Except.ok ((none : Option LLVMValue), s)
            | rhs => generate_ir fuel s rhs) with
          | .error err => .error err
          | .ok (Ropt, s) =>
            match Lopt with
            | none => .ok (Ropt, s)
            | some L =>
              match Ropt with
              | none =>
                match left with
                | .ident nm => generate_ir fuel s (.ident nm)
                | _ => .ok (some L, s)
              | some Rval0 =>
                if op = TOKEN_ASSIGN then
                  match load_if_pointer s Rval0 with
                  | .error err => .error err
                  | .ok (Rval, s) =>
                    match s.emit_discard (.store Rval L) with
                    | .error err => .error err
                    | .ok s => .ok (some Rval, s)
                else
                  match generate_ir fuel s left with
                  | .error err => .error err
                  | .ok (Lvalopt, s) =>
                    let lres : Except String (Option LLVMValue × IRState) :=
                      match Lvalopt with
                      | none => Except.ok (none, s)
                      | some Lval0 =>
                        (match load_if_pointer s Lval0 with
                         | .error err => Except.error err
                         | .ok (Lval, s) => Except.ok (some Lval, s))
                    match lres with
                    | .error err => .error err
                    | .ok (Lvalopt, s) =>
                      match load_if_pointer s Rval0 with
                      | .error err => .error err
                      | .ok (Rval, s) =>
                        match compound_assign_opcode op with
                        | some (opcode, nm) =>
                          match Lvalopt with
                          | none => .error "NULL_DEREF"
                          | some Lval =>
                            match s.emit (.binop opcode Lval Rval nm) with
                            | .error err => .error err
                            | .ok (rid, s) =>
                              let result := instr_ref rid Lval.getType
                              match s.emit_discard (.store result L) with
                              | .error err => .error err
                              | .ok s => .ok (some result, s)
                        | none =>
                          match Lvalopt with
                          | none =>
                            if (plain_binary_instruction op (const_int i32 0)
                                (const_int i32 0)).isSome then
                              .error "NULL_DEREF"
                            else .ok (none, s)
                          | some Lval =>
                            match plain_binary_instruction op Lval Rval with
                            | some (instr, result_ty) =>
                              match s.emit instr with
                              | .error err => .error err
                              | .ok (rid, s) => .ok (some (instr_ref rid result_ty), s)
                            | none => .ok (none, s)
    | .func_call function_name params =>
      match s.insert_point with
      | none => .error "(FATAL) Cannot find parent IR block for function call."
      | some _ =>
        match s.getFunction function_name with
        | none => .error "Invalid function call."
        | some callee =>
          match generate_call_args fuel s params with
          | .error err => .error err
          | .ok (none, s) => .ok (none, s)
          | .ok (some args, s) =>
            match s.emit (.call function_name args "calltmp") with
            | .error err => .error err
            | .ok (id, s) => .ok (some (instr_ref id callee.return_type), s)
    | .ret value =>
      match value with
      | .null =>
        match s.emit .ret_void with
        | .error err => .error err
        | .ok (id, s) => .ok (some (instr_ref id LLVMType.void), s)
      | value =>
        match generate_ir fuel s value with
        | .error err => .error err
        | .ok (none, s) => .ok (none, s)
        | .ok (some val, s) =>
          match s.insert_point with
          | none => .error "LLVM: no insertion block"
          | some _ =>
            let retTy := s.function_return_type
            let vres : Except String (LLVMValue × IRState) :=
              if val.getType ≠ retTy then
                if val.getType.isIntegerTy ∧ retTy.isIntegerTy then
                  (match s.emit (.int_cast val retTy true "retcast") with
                   | .error err => Except.error err
                   | .ok (cid, s) => Except.ok (instr_ref cid retTy, s))
                else
                  Except.error "Return value type does not match the function return type."
              else Except.ok (val, s)
            match vres with
            | .error err => .error err
            | .ok (val, s) =>
              match s.emit (.ret_val val) with
              | .error err => .error err
              | .ok (id, s) => .ok (some (instr_ref id LLVMType.void), s)
    | .jump jump_type =>
      match s.loop_terminals with
      | [] => .error "break/continue cannot be used outside a loop."
      | current :: _ =>
        let target := match jump_type with
          | J_BREAK => current.loop_end
          | J_CONTINUE => current.loop_condition
        match s.emit_discard (.br target) with
        | .error err => .error err
        | .ok s =>
          match s.insert_point with
          | none => .error "(FATAL) Cannot find parent IR block for jump statement."
          | some _ =>
            let (bjumpend, s) := s.create_block "jumpend"
            .ok (none, s.set_insert_point bjumpend)
    | .block_expr block =>
      match generate_block_ir fuel s block with
      | .error err => .error err
      | .ok (_, s) => .ok (none, s)
termination_by structural fuel

/-- `ir_generator.h`, `generate_ir__logical_and`. -/
def generate_ir__logical_and (fuel : Nat) (s : IRState) (left right : AST_Expression) :
    Except String (Option LLVMValue × IRState) :=
  match fuel with
  | 0 => .error "OUT_OF_FUEL"
  | fuel + 1 =>
    match s.insert_point with
    | none => .error "LLVM: no insertion block"
    | some current_block =>
      let (bandright, s) := s.create_block "andright"
      let (bandend, s) := s.create_block "andend"
      match generate_ir fuel s left with
      | .error err => .error err
      | .ok (none, s) => .ok (none, s)
      | .ok (some L0, s) =>
        match cast_llvm_value_to_bool s L0 with
        | .error err => .error err
        | .ok (L, s) =>
          match s.emit_discard (.cond_br L bandright bandend) with
          | .error err => .error err
          | .ok s =>
            let s := s.set_insert_point bandright
            match generate_ir fuel s right with
            | .error err => .error err
            | .ok (none, s) => .ok (none, s)
            | .ok (some R0, s) =>
              match cast_llvm_value_to_bool s R0 with
              | .error err => .error err
              | .ok (R, s) =>
                match s.emit_discard (.br bandend) with
                | .error err => .error err
                | .ok s =>
                  let s := s.set_insert_point bandend
                  match s.emit (.phi i1
                      [(const_int i1 0, current_block), (R, bandright)] "andtmp") with
                  | .error err => .error err
                  | .ok (id, s) => .ok (some (instr_ref id i1), s)
termination_by structural fuel

/-- `ir_generator.h`, `generate_ir__logical_or`. -/
def generate_ir__logical_or (fuel : Nat) (s : IRState) (left right : AST_Expression) :
    Except String (Option LLVMValue × IRState) :=
  match fuel with
  | 0 => .error "OUT_OF_FUEL"
  | fuel + 1 =>
    match s.insert_point with
    | none => .error "LLVM: no insertion block"
    | some current_block =>
      let (borright, s) := s.create_block "orright"
      let (borend, s) := s.create_block "orend"
      match generate_ir fuel s left with
      | .error err => .error err
      | .ok (none, s) => .ok (none, s)
      | .ok (some L0, s) =>
        match cast_llvm_value_to_bool s L0 with
        | .error err => .error err
        | .ok (L, s) =>
          match s.emit_discard (.cond_br L borend borright) with
          | .error err => .error err
          | .ok s =>
            let s := s.set_insert_point borright
            match generate_ir fuel s right with
            | .error err => .error err
            | .ok (none, s) => .ok (none, s)
            | .ok (some R0, s) =>
              match cast_llvm_value_to_bool s R0 with
              | .error err => .error err
              | .ok (R, s) =>
                match s.emit_discard (.br borend) with
                | .error err => .error err
                | .ok s =>
                  let s := s.set_insert_point borend
                  match s.emit (.phi i1
                      [(const_int i1 1, current_block), (R, borright)] "ortmp") with
                  | .error err => .error err
                  | .ok (id, s) => .ok (some (instr_ref id i1), s)
termination_by structural fuel

/-- `ir_generator.h`, `generate_block_ir`: emit the statements in
order; a `Return` stops the walk with `true`, a `Jump` stops it with
`false`; null statement pointers are skipped (`if (expr)`). -/
def generate_block_ir (fuel : Nat) (s : IRState) (block : List AST_Expression) :
    Except String (Bool × IRState) :=
  match fuel with
  | 0 => .error "OUT_OF_FUEL"
  | fuel + 1 =>
    match block with
    | [] => .ok (false, s)
    | e :: rest =>
      if e.is_null then generate_block_ir fuel s rest
      else
        match generate_ir fuel s e with
        | .error err => .error err
        | .ok (_, s) =>
          if e.is_return then .ok (true, s)
          else if e.is_jump then .ok (false, s)
          else generate_block_ir fuel s rest
termination_by structural fuel

/-- `ir_generator.cpp`, `AST_Function_Call::generate_ir`, the argument
loop: evaluate arguments in source order; a `nullptr` argument value
aborts the whole call with `nullptr`. -/
def generate_call_args (fuel : Nat) (s : IRState) (params : List AST_Expression) :
    Except String (Option (List LLVMValue) × IRState) :=
  match fuel with
  | 0 => .error "OUT_OF_FUEL"
  | fuel + 1 =>
    match params with
    | [] => .ok (some [], s)
    | p :: rest =>
      match generate_ir fuel s p with
      | .error err => .error err
      | .ok (none, s) => .ok (none, s)
      | .ok (some v, s) =>
        match generate_call_args fuel s rest with
        | .error err => .error err
        | .ok (none, s) => .ok (none, s)
        | .ok (some vs, s) => .ok (some (v :: vs), s)
termination_by structural fuel

end

/-- `e`'s emission is straight-line under the symbol table `st`: from
any state carrying `st` and inserting into a block `b`, emitting `e`
succeeds with the value `v s` and appends the instruction run `ins s`
to `b`, leaving every other block and the insertion point unchanged.
Identifiers, literals and builtin binary operations on them are all of
this shape. -/
def emits_straight (fuel : Nat) (st : smap LLVM_Symbol_Info) (e : AST_Expression)
    (v : IRState → LLVMValue) (ins : IRState → List Instruction) : Prop :=
  ∀ (s : IRState) (b : Nat), s.llvm_symbol_table = st → s.insert_point = some b →
    generate_ir fuel s e = .ok (some (v s), s.append_instrs b (ins s))

/-! ## Concrete programs used by the claim theorems -/

/-- The token vector of the one-line file `int main() { return 0; }`. -/
def c5_toks : List Token :=
  [⟨"int", TOKEN_DATA_TYPE, 1, 3, "main.em"⟩,
   ⟨"main", TOKEN_IDENTIFIER, 1, 8, "main.em"⟩,
   ⟨"(", TOKEN_LEFT_PAREN, 1, 8, "main.em"⟩,
   ⟨")", TOKEN_RIGHT_PAREN, 1, 9, "main.em"⟩,
   ⟨"\x7b", TOKEN_LEFT_BRACE, 1, 11, "main.em"⟩,
   ⟨"return", TOKEN_KEYWORD, 1, 19, "main.em"⟩,
   ⟨"0", TOKEN_NUMERIC_LITERAL, 1, 21, "main.em"⟩,
   ⟨";", TOKEN_DELIMITER, 1, 21, "main.em"⟩,
   ⟨"\x7d", TOKEN_RIGHT_BRACE, 1, 23, "main.em"⟩]

/-- Tokens of the expression statement `a * b + c;` (`*` binds tighter
than `+`). -/
def c2_toks : List Token :=
  [⟨"a", TOKEN_IDENTIFIER, 1, 1, "t.em"⟩, ⟨"*", TOKEN_STAR, 1, 3, "t.em"⟩,
   ⟨"b", TOKEN_IDENTIFIER, 1, 5, "t.em"⟩, ⟨"+", TOKEN_PLUS, 1, 7, "t.em"⟩,
   ⟨"c", TOKEN_IDENTIFIER, 1, 9, "t.em"⟩, ⟨";", TOKEN_DELIMITER, 1, 10, "t.em"⟩]

/-- Tokens of the expression statement `a - b + c;` (`-` and `+` share
one precedence level, so the spec demands left association). -/
def c2_toks_eq : List Token :=
  [⟨"a", TOKEN_IDENTIFIER, 1, 1, "t.em"⟩, ⟨"-", TOKEN_MINUS, 1, 3, "t.em"⟩,
   ⟨"b", TOKEN_IDENTIFIER, 1, 5, "t.em"⟩, ⟨"+", TOKEN_PLUS, 1, 7, "t.em"⟩,
   ⟨"c", TOKEN_IDENTIFIER, 1, 9, "t.em"⟩, ⟨";", TOKEN_DELIMITER, 1, 10, "t.em"⟩]

/-- An emitter state mid-function: one (entry) block, the builder
inserting into it, and a local `int x` whose alloca is SSA value 99. -/
def c1_state : IRState :=
  { blocks := [⟨0, "entry", []⟩], insert_point := some 0,
    next_block := 1, next_val := 100,
    llvm_symbol_table := smap.empty.insert "x" ⟨instr_ref 99 (ptr i32), i32⟩ }

/-- The statement `if (0) { x = 1; } else { x = 2; }`. -/
def c1_if : AST_Expression :=
  AST_Expression.if_expr (AST_Expression.literal T_INT (LitVal.i 0))
    [AST_Expression.binary TOKEN_ASSIGN (AST_Expression.ident "x")
      (AST_Expression.literal T_INT (LitVal.i 1))]
    [AST_Expression.binary TOKEN_ASSIGN (AST_Expression.ident "x")
      (AST_Expression.literal T_INT (LitVal.i 2))]

/-- An emitter state for call emission: one (entry) block, a local
`int x` (alloca = SSA value 9), and a module holding `void f()` and
`int g(int, int)`. -/
def c6_state : IRState :=
  { blocks := [⟨0, "entry", []⟩], insert_point := some 0,
    next_block := 1, next_val := 10,
    llvm_symbol_table := smap.empty.insert "x" ⟨instr_ref 9 (ptr i32), i32⟩,
    module_functions := [⟨"f", LLVMType.void, []⟩, ⟨"g", i32, [i32, i32]⟩] }

/-- An emitter state at a fresh function entry block. -/
def c4_state : IRState :=
  { blocks := [⟨0, "entry", []⟩], insert_point := some 0,
    next_block := 1, next_val := 20 }

/-- The statement `for (;;) { continue; }`. -/
def c4_for : AST_Expression :=
  AST_Expression.for_expr AST_Expression.null AST_Expression.null AST_Expression.null
    [AST_Expression.jump J_CONTINUE]

/-- An emitter state for the `&&` / `||` contract witness: one entry
block and a local `bool y` whose alloca is SSA value 39. -/
def c3w_state : IRState :=
  { blocks := [⟨0, "entry", []⟩], insert_point := some 0,
    next_block := 1, next_val := 40,
    llvm_symbol_table := smap.empty.insert "y" ⟨instr_ref 39 (ptr i1), i1⟩ }

/-- The state `true && y` leaves behind from `c3w_state`. -/
def c3w_final : IRState :=
  { blocks :=
      [⟨0, "entry", [(40, Instruction.cond_br (const_int i1 1) 1 2)]⟩,
       ⟨1, "andright",
         [(41, Instruction.load i1 (instr_ref 39 (ptr i1)) "y"),
          (42, Instruction.br 2)]⟩,
       ⟨2, "andend",
         [(43, Instruction.phi i1
            [(const_int i1 0, 0), (instr_ref 41 i1, 1)] "andtmp")]⟩],
    insert_point := some 2,
    next_block := 3,
    next_val := 44,
    llvm_symbol_table := smap.empty.insert "y" ⟨instr_ref 39 (ptr i1), i1⟩ }

/-! # Claim theorems -/

/-- C10 — For every Lexer state, the token-cursor operations are total
at the boundaries: `get_next_token`, `peek_next_token` and `peek k`
return NULL exactly when the requested index is at or past the end of
the token vector; `peek_prev_token` returns NULL when the cursor is at
index 0; `move_to_next_token` leaves the cursor unchanged at the last
token; and whenever the cursor is within the token vector, it stays so
after `get_next_token` and `move_to_next_token`, so it never exceeds
the last valid token index. -/
theorem C10_token_cursor_boundaries (l : Lexer) :
    ((l.get_next_token).1 = none ↔ l.curr_token_index + 1 ≥ l.tokens.length) ∧
    ((l.get_next_token).2.curr_token_index =
      if l.curr_token_index + 1 ≥ l.tokens.length then l.curr_token_index
      else l.curr_token_index + 1) ∧
    (l.peek_next_token = none ↔ l.curr_token_index + 1 ≥ l.tokens.length) ∧
    (∀ k, l.peek k = none ↔ l.curr_token_index + k ≥ l.tokens.length) ∧
    (l.curr_token_index = 0 → l.peek_prev_token = none) ∧
    (l.move_to_next_token.curr_token_index =
      if l.curr_token_index + 1 ≥ l.tokens.length then l.curr_token_index
      else l.curr_token_index + 1) ∧
    (l.curr_token_index < l.tokens.length →
      (l.get_next_token).2.curr_token_index < l.tokens.length ∧
      l.move_to_next_token.curr_token_index < l.tokens.length) := by
  refine ⟨?_, ?_, ?_, ?_, ?_, ?_, ?_⟩
  · unfold Lexer.get_next_token
    split
    · rename_i h
      simpa using h
    · simp [List.get?_eq_none]
  · unfold Lexer.get_next_token
    split <;> simp_all
  · unfold Lexer.peek_next_token
    split
    · rename_i h
      simpa using h
    · simp [List.get?_eq_none]
  · intro k
    unfold Lexer.peek
    split
    · rename_i h
      simpa using h
    · simp [List.get?_eq_none]
  · intro h
    unfold Lexer.peek_prev_token
    simp [h]
  · unfold Lexer.move_to_next_token
    split <;> simp_all
  · intro h
    constructor
    · unfold Lexer.get_next_token
      split <;> simp_all
    · unfold Lexer.move_to_next_token
      split <;> simp_all

/-- Witness for C10 at a concrete two-token lexer. -/
theorem C10_token_cursor_boundaries_witness :
    (({ tokens := [⟨"a", 1, 1, 0, ""⟩, ⟨";", 9, 1, 1, ""⟩] : Lexer}).curr_token_index
        < ({ tokens := [⟨"a", 1, 1, 0, ""⟩, ⟨";", 9, 1, 1, ""⟩] : Lexer}).tokens.length) ∧
    (({ tokens := [⟨"a", 1, 1, 0, ""⟩, ⟨";", 9, 1, 1, ""⟩] : Lexer}).get_next_token).2.curr_token_index
        < ({ tokens := [⟨"a", 1, 1, 0, ""⟩, ⟨";", 9, 1, 1, ""⟩] : Lexer}).tokens.length := by
  have h := C10_token_cursor_boundaries
    { tokens := [⟨"a", 1, 1, 0, ""⟩, ⟨";", 9, 1, 1, ""⟩] }
  exact ⟨by decide, (h.2.2.2.2.2.2 (by decide)).1⟩

/-! ### C7 -/

/-- `get_next_token` only moves the cursor; every other Lexer field —
in particular the symbol table — is untouched. -/
theorem get_next_token_preserves_symbol_table (l : Lexer) :
    ((l.get_next_token).2).symbol_table = l.symbol_table := by
  unfold Lexer.get_next_token
  split <;> rfl

/-- Tokens of the statement list `int x ; int x ;`. -/
def c7_tokens : List Token :=
  [⟨"int", TOKEN_DATA_TYPE, 1, 0, ""⟩, ⟨"x", TOKEN_IDENTIFIER, 1, 4, ""⟩,
   ⟨";", TOKEN_DELIMITER, 1, 5, ""⟩, ⟨"int", TOKEN_DATA_TYPE, 1, 7, ""⟩,
   ⟨"x", TOKEN_IDENTIFIER, 1, 11, ""⟩, ⟨";", TOKEN_DELIMITER, 1, 12, ""⟩]

/-- A symbol table with one open (empty) scope. -/
def c7_table : Symbol_Table := { scopes := [smap.empty] }

def c7_lexer : Lexer := { tokens := c7_tokens, symbol_table := c7_table }

/-- C7 counterexample — parsing the declaration `int x` inside an open
scope does *not* insert `x` into that scope (the symbol table comes
back unchanged, and `x` is absent from the current scope), and parsing
the duplicate declaration `int x` in the same scope succeeds rather
than raising an error.  This refutes the claim at the concrete
statement list `int x; int x;`. -/
theorem C7_counterexample_declaration_not_inserted :
    ∃ l1 l2,
      parse_ast_declaration c7_lexer = .ok (.decl T_INT "x", l1) ∧
      l1.symbol_table = c7_table ∧
      (smap.empty : smap Symbol).get "x" = none ∧
      parse_ast_declaration (l1.move_to_next_token) = .ok (.decl T_INT "x", l2) ∧
      l2.symbol_table = c7_table := by
  exact ⟨_, _, rfl, rfl, rfl, rfl, rfl⟩

/-- The overwrite map of `smap::insert` leaves the first entry with
the key rewritten to the new pair. -/
theorem find_overwrite {α : Type} (key : String) (value : α) :
    ∀ (l : List (String × α)), (l.any (fun e => e.1 = key)) = true →
      (l.map (fun e => if e.1 = key then (key, value) else e)).find?
        (fun e => e.1 = key) = some (key, value) := by
  intro l
  induction l with
  | nil => intro h; simp at h
  | cons hd tl ih =>
    intro h
    by_cases hh : hd.1 = key
    · simp [List.find?_cons, hh]
    · simp only [List.any_cons] at h
      have htl : (tl.any (fun e => e.1 = key)) = true := by
        rcases Bool.or_eq_true_iff.mp h with h1 | h1
        · exact absurd (by simpa using h1) hh
        · exact h1
      simpa [List.find?_cons, hh] using ih htl

/-- One `smap` key occurs in at most one entry: inserting an existing
key rewrites that entry in place. -/
theorem smap_get_insert_self {α : Type} (m : smap α) (key : String) (value : α) :
    (m.insert key value).get key = some value := by
  unfold smap.insert smap.get
  by_cases h : m.entries.any (fun e => e.1 = key)
  · simp only [h, if_true]
    rw [find_overwrite key value m.entries h]
    rfl
  · simp only [h, if_false]
    have hnone : m.entries.find? (fun e => e.1 = key) = none := by
      rw [List.find?_eq_none]
      intro e he
      simp only [List.any_eq_true, not_exists, not_and] at h
      simpa using h e he
    simp [List.find?_append, hnone]

/-- Inserting into an `smap` never creates a second entry for the same
key: the key list stays duplicate-free. -/
theorem smap_insert_keeps_keys_nodup {α : Type} (m : smap α) (key : String)
    (value : α) (hnd : (m.entries.map Prod.fst).Nodup) :
    (((m.insert key value).entries.map Prod.fst)).Nodup := by
  unfold smap.insert
  by_cases h : m.entries.any (fun e => e.1 = key)
  · simp only [h, if_true]
    have heq : (m.entries.map (fun e => if e.1 = key then (key, value) else e)).map Prod.fst
        = m.entries.map Prod.fst := by
      rw [List.map_map]
      apply List.map_congr_left
      intro e _
      by_cases he : e.1 = key
      · simp only [Function.comp_apply, if_pos he]
        exact he.symm
      · simp only [Function.comp_apply, if_neg he]
    rw [heq]
    exact hnd
  · simp only [h, Bool.false_eq_true, if_false, List.map_append]
    simp only [List.any_eq_true, not_exists, not_and] at h
    have h2 : (([(key, value)] : List (String × α)).map Prod.fst).Nodup := by
      simp
    refine List.Nodup.append hnd h2 ?_
    intro a ha hb
    simp only [List.map_cons, List.map_nil, List.mem_singleton] at hb
    subst hb
    rcases List.mem_map.mp ha with ⟨e, he, hfst⟩
    exact absurd hfst (by simpa using h e he)

/-- C7 (amended) — `parse_ast_declaration` builds the Declaration node
without touching the symbol table (any successful parse leaves
`lexer->symbol_table` exactly as it was, so duplicate declarations
cannot be detected there), while `smap::insert` of an already-present
key silently overwrites that entry's value, so within one scope there
are never two entries with the same variable name. -/
theorem C7_declaration_table_untouched_insert_overwrites :
    (∀ (l : Lexer) (e : AST_Expression) (l' : Lexer),
        parse_ast_declaration l = .ok (e, l') →
        l'.symbol_table = l.symbol_table) ∧
    (∀ (m : smap Symbol) (key : String) (v1 v2 : Symbol),
        ((m.insert key v1).insert key v2).get key = some v2) ∧
    (∀ (m : smap Symbol) (key : String) (value : Symbol),
        (m.entries.map Prod.fst).Nodup →
        (((m.insert key value).entries.map Prod.fst)).Nodup) := by
  refine ⟨?_, ?_, ?_⟩
  · intro l e l' h
    unfold parse_ast_declaration at h
    repeat' split at h
    all_goals simp_all
    all_goals (
      rename_i hpair1 a b c d hident hpair2
      have key : ∀ (x y : Lexer) (t : Option Token),
          x.get_next_token = (t, y) → y.symbol_table = x.symbol_table := by
        intro x y t hxy
        have hx := get_next_token_preserves_symbol_table x
        rw [hxy] at hx
        exact hx
      obtain ⟨-, h2⟩ := h
      subst h2
      exact (key _ _ _ hpair2).trans (key _ _ _ hpair1))
  · intro m key v1 v2
    exact smap_get_insert_self _ key v2
  · intro m key value hnd
    exact smap_insert_keeps_keys_nodup m key value hnd

/-- Witness for C7's amended theorem at concrete inputs. -/
theorem C7_declaration_table_untouched_insert_overwrites_witness :
    ((c7_lexer.move_to_next_token.move_to_next_token.move_to_next_token).symbol_table
      = c7_lexer.symbol_table) ∧
    (((smap.empty.insert "x" (⟨"x", .SYM_VARIABLE, true, T_INT, none⟩ : Symbol)).insert
        "x" (⟨"x", .SYM_VARIABLE, true, T_FLOAT, none⟩ : Symbol)).get "x"
      = some (⟨"x", .SYM_VARIABLE, true, T_FLOAT, none⟩ : Symbol)) := by
  have h := C7_declaration_table_untouched_insert_overwrites
  constructor
  · exact rfl
  · exact h.2.1 smap.empty "x" _ _

/-! ### C8 -/

/-- C8 counterexample — the line `1.2.3;` is accepted and its digit-led
run becomes the *single* numeric-literal token `1.2.3`, which contains
two `.` characters: a second `.` in the same digit-led run *is*
absorbed into one numeric literal token. -/
theorem C8_counterexample_two_dots_one_token :
    generate_tokens "1.2.3;" 1 "t.em" false =
      .ok ([⟨"1.2.3", TOKEN_NUMERIC_LITERAL, 1, 5, "t.em"⟩,
            ⟨";", TOKEN_DELIMITER, 1, 5, "t.em"⟩], false) ∧
    ("1.2.3".data.count '.') = 2 := by
  exact ⟨rfl, rfl⟩

/-- C8 (amended) — while the partial token is a numeric run, *every*
`.` character is absorbed into the run: one scanning step on `.` with a
non-empty numeric `curr` pushes the dot onto `curr` and continues (the
scanner never checks whether `curr` already holds a dot), so a
digit-led run may contain any number of dots in one numeric-literal
token. -/
theorem C8_dot_always_absorbed_into_numeric_run
    (fuel : Nat) (line : String) (line_num : Nat) (file_name : String)
    (toks : List Token) (pos : Nat) (imc : Bool) (curr : String)
    (hdot : line_char line pos = '.') (hcurr : curr ≠ "") :
    generate_tokens_loop (fuel + 1) line line_num file_name toks pos
        true imc curr PTOK_NUMERIC =
      generate_tokens_loop fuel line line_num file_name toks (pos + 1)
        true imc (curr.push '.') PTOK_NUMERIC := by
  rw [generate_tokens_loop]
  rw [hdot]
  have h1 : ('.' : Char) ≠ nulChar := by decide
  have h2 : ('.' : Char) ≠ '#' := by decide
  simp [h1, h2, hcurr]

/-- Witness for C8's amended theorem: the second dot of `1.2.3;`
(position 3, `curr = "1.2"`) is absorbed. -/
theorem C8_dot_always_absorbed_into_numeric_run_witness :
    generate_tokens_loop 17 "1.2.3;" 1 "t.em" [] 3 true false "1.2" PTOK_NUMERIC =
      generate_tokens_loop 16 "1.2.3;" 1 "t.em" [] 4 true false "1.2." PTOK_NUMERIC := by
  have h := C8_dot_always_absorbed_into_numeric_run 16 "1.2.3;" 1 "t.em" [] 3 false "1.2"
    (by decide) (by decide)
  exact h

/-! ### C5 -/

set_option maxHeartbeats 4000000 in
/-- C5 — lexing and parsing a file that defines `int main() { return
0; }` succeeds and the definition of `main` is in the returned AST, yet
the resulting Lexer artifact's `entry_point_found` flag is still
`false`: no code path in `parse_tokens` (or anywhere else in the
front end) ever assigns it, so a file containing `main` finishes the
front end with the flag `false`, contradicting the claim (the driver,
`main.cpp`, reads this flag and would report a missing entry point for
every build). -/
theorem C5_entry_point_found_never_set :
    generate_tokens "int main() \x7b return 0; \x7d" 1 "main.em" false =
      .ok (c5_toks, false) ∧
    (parse_tokens 16 ({ tokens := c5_toks, entry_point_found := false } : Lexer)).map
        (fun r => (r.1, r.2.entry_point_found)) =
      .ok ([AST_Expression.func_def T_INT "main" [] false
        [AST_Expression.ret (AST_Expression.binary TOKEN_NONE
          (AST_Expression.literal T_INT (LitVal.i 0)) AST_Expression.null)]], false) := by
  exact ⟨rfl, rfl⟩

/-! ### C2 -/

set_option maxHeartbeats 1000000 in
/-- C2 — refuted at both of its cases with `prec(OP1) ≥ prec(OP2)`.
Parsing the statement `a * b + c;` yields a Binary node rooted at `*`
(OP1) with `(b + c)` as its right child, even though
`prec(+) < prec(*)` means the claim (and `parser.cpp`'s own
"leftward bent tree" comment) demands a root of `+` with `(a * b)` as
its left child; likewise the equal-precedence chain `a - b + c;`
parses right-associated, rooted at `-` with `(b + c)` on the right.
`parse_ast_subexpression` never updates `curr_precedence` after
reading OP1, so the first operator always ends up at the root. -/
theorem C2_root_is_first_operator_not_lower_precedence :
    (parse_ast_expression 12 ({ tokens := c2_toks } : Lexer)).map (fun r => r.1) =
      .ok (AST_Expression.binary TOKEN_STAR (AST_Expression.ident "a")
        (AST_Expression.binary TOKEN_PLUS (AST_Expression.ident "b")
          (AST_Expression.ident "c"))) ∧
    op_prec TOKEN_PLUS < op_prec TOKEN_STAR ∧
    (parse_ast_expression 12 ({ tokens := c2_toks_eq } : Lexer)).map (fun r => r.1) =
      .ok (AST_Expression.binary TOKEN_MINUS (AST_Expression.ident "a")
        (AST_Expression.binary TOKEN_PLUS (AST_Expression.ident "b")
          (AST_Expression.ident "c"))) ∧
    op_prec TOKEN_PLUS = op_prec TOKEN_MINUS := by
  refine ⟨rfl, by decide, rfl, rfl⟩


/-! ### C1 -/

/-- C1 — refuted at `if (0) { x = 1; } else { x = 2; }`.  The emitter
does create `then`, `else` and `ifend`, branch on the normalised
condition, emit the then statements into `then`, and leave the
insertion point at `ifend`; but the `else` block receives the *then*
statements again (`store 1`, blocks 1 and 2 below are identical), and
no `store` of the else-branch constant 2 is emitted anywhere — the
else arm of `generate_ir` walks `block` instead of `else_block`
(`ir_generator.cpp` line 221). -/
theorem C1_else_block_reemits_then_statements :
    (generate_ir 8 c1_state c1_if).map
        (fun r => (r.1, r.2.blocks, r.2.insert_point)) =
      .ok (none,
        [⟨0, "entry",
           [(100, Instruction.icmp "ne" (const_int i32 0) (const_int i32 0) "ifcond"),
            (101, Instruction.cond_br (instr_ref 100 i1) 1 2)]⟩,
         ⟨1, "then",
           [(102, Instruction.store (const_int i32 1) (instr_ref 99 (ptr i32))),
            (103, Instruction.br 3)]⟩,
         ⟨2, "else",
           [(104, Instruction.store (const_int i32 1) (instr_ref 99 (ptr i32))),
            (105, Instruction.br 3)]⟩,
         ⟨3, "ifend", []⟩],
        some 3) ∧
    (generate_ir 8 c1_state c1_if).toOption.all (fun r =>
      r.2.blocks.all (fun blk => blk.instrs.all (fun p =>
        match p.2 with
        | Instruction.store (const_int _ n) _ => n != 2
        | _ => true))) = true := by
  exact ⟨rfl, rfl⟩


/-! ### C6 -/

/-- C6 — partially refuted.  Callee lookup and fatal error on a missing
callee hold (`h` is not in the module), and arguments are evaluated in
source order (`g(x, 2)` loads `x` before the call, operands in order);
but the void/non-void split does not exist: `generate_ir`
unconditionally emits `CreateCall(callee, args, "calltmp")`, so calling
`void f()` yields a *named* call instruction whose result the emitter
hands back as a value (`instr_ref` of type void) — LLVM's verifier
rejects a named instruction of void type, so every call to a void
function aborts the build. -/
theorem C6_void_call_still_named_and_valued :
    generate_ir 8 c6_state (AST_Expression.func_call "h" []) =
      .error "Invalid function call." ∧
    (generate_ir 8 c6_state (AST_Expression.func_call "f" [])).map
        (fun r => (r.1, r.2.blocks)) =
      .ok (some (instr_ref 10 LLVMType.void),
        [⟨0, "entry", [(10, Instruction.call "f" [] "calltmp")]⟩]) ∧
    (generate_ir 8 c6_state (AST_Expression.func_call "g"
        [AST_Expression.ident "x", AST_Expression.literal T_INT (LitVal.i 2)])).map
        (fun r => (r.1, r.2.blocks)) =
      .ok (some (instr_ref 11 i32),
        [⟨0, "entry",
          [(10, Instruction.load i32 (instr_ref 9 (ptr i32)) "x"),
           (11, Instruction.call "g" [instr_ref 10 i32, const_int i32 2] "calltmp")]⟩]) := by
  exact ⟨rfl, rfl, rfl⟩


/-! ### C4 -/

/-- C4 — confirmed.  With an empty loop-terminals stack, emitting any
jump is the fatal diagnostic; with `t` on top of the stack, `break`
appends an unconditional branch to `t.loop_end` and `continue` to
`t.loop_condition` at the insertion point, and in both cases a fresh
`jumpend` block is created and becomes the insertion point.  For a
for-loop the recorded condition target is the `forcond` block (id 1
below), not the increment block `forinc` (id 3): the body of
`for (;;) { continue; }` branches to block 1. -/
theorem C4_break_continue_emission (fuel : Nat) (s : IRState) (b : Nat)
    (t : Loop_Terminals) (rest : List Loop_Terminals)
    (hip : s.insert_point = some b)
    (hlt : s.loop_terminals = t :: rest) :
    (∀ jt, generate_ir (fuel + 1) { s with loop_terminals := [] }
        (AST_Expression.jump jt) =
      .error "break/continue cannot be used outside a loop.") ∧
    generate_ir (fuel + 1) s (AST_Expression.jump J_BREAK) =
      .ok (none, { s with
        blocks := (s.blocks.map (fun blk => if blk.id = b then
            { blk with instrs := blk.instrs ++ [(s.next_val, Instruction.br t.loop_end)] }
          else blk)) ++ [⟨s.next_block, "jumpend", []⟩],
        next_val := s.next_val + 1,
        next_block := s.next_block + 1,
        insert_point := some s.next_block }) ∧
    generate_ir (fuel + 1) s (AST_Expression.jump J_CONTINUE) =
      .ok (none, { s with
        blocks := (s.blocks.map (fun blk => if blk.id = b then
            { blk with instrs := blk.instrs ++ [(s.next_val, Instruction.br t.loop_condition)] }
          else blk)) ++ [⟨s.next_block, "jumpend", []⟩],
        next_val := s.next_val + 1,
        next_block := s.next_block + 1,
        insert_point := some s.next_block }) ∧
    (generate_ir 8 c4_state c4_for).map
        (fun r => (r.2.block_named 2, r.2.block_named 1, r.2.block_named 3)) =
      .ok (some ⟨2, "forbody", [(22, Instruction.br 1)]⟩,
           some ⟨1, "forcond",
             [(21, Instruction.cond_br (const_int i1 1) 2 4)]⟩,
           some ⟨3, "forinc", [(24, Instruction.br 1)]⟩) := by
  refine ⟨?_, ?_, ?_, rfl⟩
  · intro jt
    simp [generate_ir]
  · simp [generate_ir, hlt, IRState.emit_discard, IRState.emit, hip,
      IRState.create_block, IRState.set_insert_point]
  · simp [generate_ir, hlt, IRState.emit_discard, IRState.emit, hip,
      IRState.create_block, IRState.set_insert_point]

/-- Witness for C4 inside the loop whose condition block is 1 and end
block is 4: `break` branches to 4 and the fresh `jumpend` block 1
becomes the insertion point. -/
theorem C4_break_continue_emission_witness :
    generate_ir 8 { c4_state with loop_terminals := [(⟨1, 4⟩ : Loop_Terminals)] }
        (AST_Expression.jump J_BREAK) =
      .ok (none, { c4_state with
        loop_terminals := [(⟨1, 4⟩ : Loop_Terminals)],
        blocks := [⟨0, "entry", [(20, Instruction.br 4)]⟩, ⟨1, "jumpend", []⟩],
        next_val := 21, next_block := 2, insert_point := some 1 }) :=
  (C4_break_continue_emission 7
    { c4_state with loop_terminals := [(⟨1, 4⟩ : Loop_Terminals)] }
    0 ⟨1, 4⟩ [] rfl rfl).2.1


/-! ### C9 -/

/-- Helper for C9: a successful walk over a statement list that holds
no Return and no Jump reports `false`. -/
lemma generate_block_ir_no_terminator (fuel : Nat) :
    ∀ (s : IRState) (block : List AST_Expression),
      (∀ x ∈ block, x.is_return = false ∧ x.is_jump = false) →
      ∀ (b : Bool) (s1 : IRState),
        generate_block_ir fuel s block = .ok (b, s1) → b = false := by
  induction fuel with
  | zero =>
    intro s block hall b s1 h
    simp [generate_block_ir] at h
  | succ fuel ih =>
    intro s block hall b s1 h
    match block with
    | [] =>
      simp [generate_block_ir] at h
      exact h.1
    | e :: rest =>
      rw [generate_block_ir] at h
      by_cases hn : e.is_null = true
      · rw [hn] at h
        simp only [if_true] at h
        exact ih s rest (fun x hx => hall x (List.mem_cons_of_mem _ hx)) b s1 h
      · rw [Bool.not_eq_true] at hn
        rw [hn] at h
        simp only [Bool.false_eq_true, if_false] at h
        obtain ⟨hret, hjump⟩ := hall e (List.mem_cons_self _ _)
        match hg : generate_ir fuel s e with
        | .error err => rw [hg] at h; exact absurd h (by simp)
        | .ok (v, s2) =>
          rw [hg, hret, hjump] at h
          simp only [Bool.false_eq_true, if_false] at h
          exact ih s2 rest (fun x hx => hall x (List.mem_cons_of_mem _ hx)) b s1 h

/-- Helper for C9: no AST node is both a Return and a Jump. -/
lemma is_return_is_jump_exclusive (e : AST_Expression) :
    e.is_return = false ∨ e.is_jump = false := by
  cases e <;> simp [AST_Expression.is_return, AST_Expression.is_jump]

/-- C9 — confirmed, as the step contract of `generate_block_ir`: the
empty list reports `false`; a (non-null, successfully emitted) head
that is a Return stops the walk at once with `true`, a Jump stops it
with `false`, and in either case the tail is never consulted (the walk
result does not depend on it); a non-terminator head hands the updated
state to the walk of the tail; and a successful walk of a list with no
terminator at all reports `false`. -/
theorem C9_generate_block_ir_terminator_contract (fuel : Nat) (s s2 : IRState)
    (e : AST_Expression) (v : Option LLVMValue) (rest rest2 : List AST_Expression)
    (hnn : e.is_null = false)
    (hgen : generate_ir fuel s e = .ok (v, s2)) :
    generate_block_ir (fuel + 1) s [] = .ok (false, s) ∧
    (e.is_return = true →
      generate_block_ir (fuel + 1) s (e :: rest) = .ok (true, s2)) ∧
    (e.is_jump = true →
      generate_block_ir (fuel + 1) s (e :: rest) = .ok (false, s2)) ∧
    (e.is_return = true ∨ e.is_jump = true →
      generate_block_ir (fuel + 1) s (e :: rest) =
        generate_block_ir (fuel + 1) s (e :: rest2)) ∧
    (e.is_return = false → e.is_jump = false →
      generate_block_ir (fuel + 1) s (e :: rest) = generate_block_ir fuel s2 rest) ∧
    (∀ (block : List AST_Expression) (s0 : IRState) (b : Bool) (s1 : IRState),
      (∀ x ∈ block, x.is_return = false ∧ x.is_jump = false) →
      generate_block_ir fuel s0 block = .ok (b, s1) → b = false) := by
  refine ⟨by simp [generate_block_ir], ?_, ?_, ?_, ?_, ?_⟩
  · intro hr
    simp [generate_block_ir, hnn, hgen, hr]
  · intro hj
    have hr : e.is_return = false := by
      rcases is_return_is_jump_exclusive e with h | h
      · exact h
      · rw [h] at hj; exact absurd hj (by simp)
    simp [generate_block_ir, hnn, hgen, hr, hj]
  · rintro (hr | hj)
    · simp [generate_block_ir, hnn, hgen, hr]
    · have hr : e.is_return = false := by
        rcases is_return_is_jump_exclusive e with h | h
        · exact h
        · rw [h] at hj; exact absurd hj (by simp)
      simp [generate_block_ir, hnn, hgen, hr, hj]
  · intro hr hj
    simp [generate_block_ir, hnn, hgen, hr, hj]
  · exact fun block s0 b s1 hall h =>
      generate_block_ir_no_terminator fuel s0 block hall b s1 h

/-- Witness for C9: the one-statement block `{ return; }` stops with
`true` after emitting `ret void` into the entry block. -/
theorem C9_generate_block_ir_terminator_contract_witness :
    generate_block_ir 8 c4_state [AST_Expression.ret AST_Expression.null] =
      .ok (true, { c4_state with
        blocks := [⟨0, "entry", [(20, Instruction.ret_void)]⟩],
        next_val := 21 }) :=
  (C9_generate_block_ir_terminator_contract 7 c4_state
    { c4_state with
      blocks := [⟨0, "entry", [(20, Instruction.ret_void)]⟩],
      next_val := 21 }
    (AST_Expression.ret AST_Expression.null) (some (instr_ref 20 LLVMType.void)) [] []
    rfl rfl).2.1 rfl

/-! ### C3 -/

/-- Appending no instructions is a no-op. -/
lemma append_instrs_nil (s : IRState) (b : Nat) : s.append_instrs b [] = s := by
  have hb : s.blocks.map (fun blk => if blk.id = b then
      { blk with instrs := blk.instrs ++ tag_from s.next_val [] } else blk) = s.blocks := by
    rw [List.map_congr_left (g := id), List.map_id]
    intro blk _
    simp [tag_from]
  simp [IRState.append_instrs, hb]

/-- `append_instrs` leaves the insertion point alone. -/
lemma append_instrs_insert_point (s : IRState) (b : Nat) (ins : List Instruction) :
    (s.append_instrs b ins).insert_point = s.insert_point := rfl

/-- `append_instrs` leaves the symbol table alone. -/
lemma append_instrs_symbol_table (s : IRState) (b : Nat) (ins : List Instruction) :
    (s.append_instrs b ins).llvm_symbol_table = s.llvm_symbol_table := rfl

/-- A single emitted instruction is a one-element straight-line run. -/
lemma emit_eq_append (s : IRState) (b : Nat) (i : Instruction)
    (h : s.insert_point = some b) :
    s.emit i = .ok (s.next_val, s.append_instrs b [i]) := by
  simp [IRState.emit, h, IRState.append_instrs, tag_from]

/-- `emit_discard` as a straight-line run. -/
lemma emit_discard_eq_append (s : IRState) (b : Nat) (i : Instruction)
    (h : s.insert_point = some b) :
    s.emit_discard i = .ok (s.append_instrs b [i]) := by
  simp [IRState.emit_discard, emit_eq_append s b i h]

/-- `find?` by id commutes with an id-preserving map. -/
lemma find_id_map (l : List BasicBlock) (g : BasicBlock → BasicBlock)
    (hg : ∀ blk, (g blk).id = blk.id) (c : Nat) :
    (l.map g).find? (fun blk => blk.id = c) =
      (l.find? (fun blk => blk.id = c)).map g := by
  induction l with
  | nil => simp
  | cons hd tl ih =>
    by_cases h : hd.id = c
    · rw [List.map_cons, List.find?_cons_of_pos _ (by simp [hg, h]),
        List.find?_cons_of_pos _ (by simp [h])]
      rfl
    · rw [List.map_cons, List.find?_cons_of_neg _ (by simp [hg, h]),
        List.find?_cons_of_neg _ (by simp [h])]
      exact ih

/-- A found block has the id it was looked up by. -/
lemma block_named_eq_id (s : IRState) (c : Nat) (blk : BasicBlock)
    (h : s.block_named c = some blk) : blk.id = c := by
  have := List.find?_some h
  simpa using this

/-- Looking up the target of an `append_instrs`. -/
lemma block_named_append_self (s : IRState) (b : Nat) (ins : List Instruction)
    (blk : BasicBlock) (h : s.block_named b = some blk) :
    (s.append_instrs b ins).block_named b =
      some { blk with instrs := blk.instrs ++ tag_from s.next_val ins } := by
  unfold IRState.block_named IRState.append_instrs
  rw [find_id_map _ _ (by intro blk2; split <;> rfl)]
  unfold IRState.block_named at h
  rw [h]
  simp [block_named_eq_id s b blk h]

/-- Looking up any other block after an `append_instrs`. -/
lemma block_named_append_ne (s : IRState) (b c : Nat) (ins : List Instruction)
    (h : c ≠ b) :
    (s.append_instrs b ins).block_named c = s.block_named c := by
  unfold IRState.block_named IRState.append_instrs
  rw [find_id_map _ _ (by intro blk2; split <;> rfl)]
  cases hf : s.blocks.find? (fun blk => blk.id = c) with
  | none => rfl
  | some blk =>
    have hid : blk.id = c := by simpa using List.find?_some hf
    simp [hid, h]

/-- Looking up the block just created. -/
lemma block_named_create_self (s : IRState) (nm : String)
    (hfresh : ∀ blk ∈ s.blocks, blk.id < s.next_block) :
    (s.create_block nm).2.block_named s.next_block =
      some ⟨s.next_block, nm, []⟩ := by
  unfold IRState.block_named IRState.create_block
  rw [List.find?_append]
  have h1 : s.blocks.find? (fun blk => blk.id = s.next_block) = none := by
    rw [List.find?_eq_none]
    intro blk hblk
    simp [Nat.ne_of_lt (hfresh blk hblk)]
  rw [h1]
  simp

/-- Looking up an old block after a `create_block`. -/
lemma block_named_create_ne (s : IRState) (nm : String) (c : Nat)
    (h : c ≠ s.next_block) :
    (s.create_block nm).2.block_named c = s.block_named c := by
  unfold IRState.block_named IRState.create_block
  rw [List.find?_append]
  have h2 : [(⟨s.next_block, nm, []⟩ : BasicBlock)].find?
      (fun blk => blk.id = c) = none := by
    rw [List.find?_eq_none]
    intro blk hblk
    simp only [List.mem_singleton] at hblk
    simp [hblk, Ne.symm h]
  rw [h2]
  cases s.blocks.find? (fun blk => blk.id = c) <;> rfl

/-- `set_insert_point` does not touch the blocks. -/
lemma block_named_set_insert (s : IRState) (n c : Nat) :
    (s.set_insert_point n).block_named c = s.block_named c := rfl

/-- Freshness of block ids survives `create_block`. -/
lemma create_block_fresh (s : IRState) (nm : String)
    (hfresh : ∀ blk ∈ s.blocks, blk.id < s.next_block) :
    ∀ blk ∈ (s.create_block nm).2.blocks,
      blk.id < (s.create_block nm).2.next_block := by
  intro blk hblk
  unfold IRState.create_block at hblk ⊢
  simp only [List.mem_append] at hblk
  rcases hblk with h | h
  · exact Nat.lt_succ_of_lt (hfresh blk h)
  · simp at h
    simp [h]

/-- The id counter of a freshly created block's state. -/
lemma create_block_next_block (s : IRState) (nm : String) :
    (s.create_block nm).2.next_block = s.next_block + 1 := rfl

/-- `create_block` does not emit. -/
lemma create_block_next_val (s : IRState) (nm : String) :
    (s.create_block nm).2.next_val = s.next_val := rfl

/-- The value counter after a straight-line run. -/
lemma append_instrs_next_val (s : IRState) (b : Nat) (ins : List Instruction) :
    (s.append_instrs b ins).next_val = s.next_val + ins.length := rfl

/-- `set_insert_point` does not emit. -/
lemma set_insert_point_next_val (s : IRState) (n : Nat) :
    (s.set_insert_point n).next_val = s.next_val := rfl

/-- C3 — confirmed, for operands whose emission is straight-line into
the current block (`emits_straight`) and already of type i1 (for other
types the first four conjuncts spell out the coercion that
`cast_llvm_value_to_bool` inserts: i1 passes through untouched, other
integers compare `!= 0`, floats `!= 0.0`, pointers `!= null`).  For
`left && right`: the left instructions land in the current block `b`
followed by a conditional branch to `andright` (continue evaluating)
or `andend` (short-circuit); the right instructions land only in
`andright`, which closes with a branch to `andend`; `andend` holds
exactly the i1 phi `[(false, b), (R, andright)]`, and becomes the
insertion point.  For `left || right` the same with `orright` /
`orend`, the branch targets swapped (`true` short-circuits), and phi
incomings `[(true, b), (R, orright)]`. -/
theorem C3_logical_and_or_contract (fuel : Nat) (s : IRState) (b : Nat)
    (st : smap LLVM_Symbol_Info) (blkb : BasicBlock)
    (left right : AST_Expression)
    (vL vR : IRState → LLVMValue) (insL insR : IRState → List Instruction)
    (s2 s5 sfA s2o s5o sfO : IRState)
    (hip : s.insert_point = some b)
    (hst : s.llvm_symbol_table = st)
    (hbex : s.block_named b = some blkb)
    (hfresh : ∀ blk ∈ s.blocks, blk.id < s.next_block)
    (hL : emits_straight fuel st left vL insL)
    (hR : emits_straight fuel st right vR insR)
    (hvL : ∀ t, (vL t).getType = i1)
    (hvR : ∀ t, (vR t).getType = i1)
    (hs2 : s2 = ((s.create_block "andright").2.create_block "andend").2)
    (hs5 : s5 = ((s2.append_instrs b (insL s2)).append_instrs b
        [Instruction.cond_br (vL s2) s.next_block (s.next_block + 1)]).set_insert_point
        s.next_block)
    (hsfA : sfA = (((s5.append_instrs s.next_block (insR s5)).append_instrs s.next_block
        [Instruction.br (s.next_block + 1)]).set_insert_point
        (s.next_block + 1)).append_instrs (s.next_block + 1)
        [Instruction.phi i1 [(const_int i1 0, b), (vR s5, s.next_block)] "andtmp"])
    (hs2o : s2o = ((s.create_block "orright").2.create_block "orend").2)
    (hs5o : s5o = ((s2o.append_instrs b (insL s2o)).append_instrs b
        [Instruction.cond_br (vL s2o) (s.next_block + 1) s.next_block]).set_insert_point
        s.next_block)
    (hsfO : sfO = (((s5o.append_instrs s.next_block (insR s5o)).append_instrs s.next_block
        [Instruction.br (s.next_block + 1)]).set_insert_point
        (s.next_block + 1)).append_instrs (s.next_block + 1)
        [Instruction.phi i1 [(const_int i1 1, b), (vR s5o, s.next_block)] "ortmp"]) :
    (∀ (t : IRState) (v : LLVMValue), v.getType = i1 →
      cast_llvm_value_to_bool t v = .ok (v, t)) ∧
    (∀ (t : IRState) (c : Nat) (v : LLVMValue), t.insert_point = some c →
      v.getType.isIntegerTy = true → v.getType ≠ i1 →
      cast_llvm_value_to_bool t v =
        .ok (instr_ref t.next_val i1,
          t.append_instrs c
            [Instruction.icmp "ne" v (const_int v.getType 0) "tobool"])) ∧
    (∀ (t : IRState) (c : Nat) (v : LLVMValue), t.insert_point = some c →
      v.getType.isFloatingPointTy = true →
      cast_llvm_value_to_bool t v =
        .ok (instr_ref t.next_val i1,
          t.append_instrs c
            [Instruction.fcmp "one" v (const_fp v.getType "0.0") "tobool"])) ∧
    (∀ (t : IRState) (c : Nat) (v : LLVMValue), t.insert_point = some c →
      v.getType.isPointerTy = true →
      cast_llvm_value_to_bool t v =
        .ok (instr_ref t.next_val i1,
          t.append_instrs c
            [Instruction.icmp "ne" v (const_null_ptr v.getType) "tobool"])) ∧
    generate_ir__logical_and (fuel + 1) s left right =
      .ok (some (instr_ref (s5.next_val + (insR s5).length + 1) i1), sfA) ∧
    sfA.block_named b =
      some { blkb with instrs := blkb.instrs ++ tag_from s.next_val (insL s2) ++
        [(s.next_val + (insL s2).length,
          Instruction.cond_br (vL s2) s.next_block (s.next_block + 1))] } ∧
    sfA.block_named s.next_block =
      some ⟨s.next_block, "andright",
        tag_from s5.next_val (insR s5) ++
        [(s5.next_val + (insR s5).length, Instruction.br (s.next_block + 1))]⟩ ∧
    sfA.block_named (s.next_block + 1) =
      some ⟨s.next_block + 1, "andend",
        [(s5.next_val + (insR s5).length + 1,
          Instruction.phi i1 [(const_int i1 0, b), (vR s5, s.next_block)] "andtmp")]⟩ ∧
    sfA.insert_point = some (s.next_block + 1) ∧
    generate_ir__logical_or (fuel + 1) s left right =
      .ok (some (instr_ref (s5o.next_val + (insR s5o).length + 1) i1), sfO) ∧
    sfO.block_named b =
      some { blkb with instrs := blkb.instrs ++ tag_from s.next_val (insL s2o) ++
        [(s.next_val + (insL s2o).length,
          Instruction.cond_br (vL s2o) (s.next_block + 1) s.next_block)] } ∧
    sfO.block_named s.next_block =
      some ⟨s.next_block, "orright",
        tag_from s5o.next_val (insR s5o) ++
        [(s5o.next_val + (insR s5o).length, Instruction.br (s.next_block + 1))]⟩ ∧
    sfO.block_named (s.next_block + 1) =
      some ⟨s.next_block + 1, "orend",
        [(s5o.next_val + (insR s5o).length + 1,
          Instruction.phi i1 [(const_int i1 1, b), (vR s5o, s.next_block)] "ortmp")]⟩ ∧
    sfO.insert_point = some (s.next_block + 1) := by
  have hblt : b < s.next_block := by
    have hmem := List.mem_of_find?_eq_some hbex
    have h2 := hfresh _ hmem
    rwa [block_named_eq_id s b blkb hbex] at h2
  have hsp1 : ∀ (t : IRState) (n : Nat), (t.set_insert_point n).insert_point = some n :=
    fun _ _ => rfl
  have hsp2 : ∀ (t : IRState) (n : Nat),
      (t.set_insert_point n).llvm_symbol_table = t.llvm_symbol_table := fun _ _ => rfl
  have hcp1 : ∀ (t : IRState) (nm : String),
      ((t.create_block nm).2).insert_point = t.insert_point := fun _ _ => rfl
  have hcp2 : ∀ (t : IRState) (nm : String),
      ((t.create_block nm).2).llvm_symbol_table = t.llvm_symbol_table := fun _ _ => rfl
  subst hs2 hs5 hsfA hs2o hs5o hsfO
  have h2ip : (((s.create_block "andright").2.create_block "andend").2).insert_point
      = some b := hip
  have h2st : (((s.create_block "andright").2.create_block "andend").2).llvm_symbol_table
      = st := hst
  have h2ipo : (((s.create_block "orright").2.create_block "orend").2).insert_point
      = some b := hip
  have h2sto : (((s.create_block "orright").2.create_block "orend").2).llvm_symbol_table
      = st := hst
  have hbex2 : (((s.create_block "andright").2.create_block "andend").2).block_named b
      = some blkb := by
    rw [block_named_create_ne _ _ _ (by rw [create_block_next_block]; omega),
        block_named_create_ne _ _ _ (by omega)]
    exact hbex
  have hbex2o : (((s.create_block "orright").2.create_block "orend").2).block_named b
      = some blkb := by
    rw [block_named_create_ne _ _ _ (by rw [create_block_next_block]; omega),
        block_named_create_ne _ _ _ (by omega)]
    exact hbex
  refine ⟨?_, ?_, ?_, ?_, ?_, ?_, ?_, ?_, ?_, ?_, ?_, ?_, ?_, ?_⟩
  · intro t v h
    simp [cast_llvm_value_to_bool, h]
  · intro t c v hipd hint hne
    cases hv : v.getType with
    | i1 => exact absurd hv hne
    | i8 =>
      simp [cast_llvm_value_to_bool, hv, LLVMType.isIntegerTy,
        emit_eq_append t c _ hipd]
    | i32 =>
      simp [cast_llvm_value_to_bool, hv, LLVMType.isIntegerTy,
        emit_eq_append t c _ hipd]
    | f32 => rw [hv] at hint; exact absurd hint (by simp [LLVMType.isIntegerTy])
    | void => rw [hv] at hint; exact absurd hint (by simp [LLVMType.isIntegerTy])
    | ptr τ => rw [hv] at hint; exact absurd hint (by simp [LLVMType.isIntegerTy])
  · intro t c v hipd hfl
    cases hv : v.getType with
    | f32 =>
      simp [cast_llvm_value_to_bool, hv, LLVMType.isIntegerTy,
        LLVMType.isFloatingPointTy, emit_eq_append t c _ hipd]
    | i1 => rw [hv] at hfl; exact absurd hfl (by simp [LLVMType.isFloatingPointTy])
    | i8 => rw [hv] at hfl; exact absurd hfl (by simp [LLVMType.isFloatingPointTy])
    | i32 => rw [hv] at hfl; exact absurd hfl (by simp [LLVMType.isFloatingPointTy])
    | void => rw [hv] at hfl; exact absurd hfl (by simp [LLVMType.isFloatingPointTy])
    | ptr τ => rw [hv] at hfl; exact absurd hfl (by simp [LLVMType.isFloatingPointTy])
  · intro t c v hipd hpt
    cases hv : v.getType with
    | ptr τ =>
      simp [cast_llvm_value_to_bool, hv, LLVMType.isIntegerTy,
        LLVMType.isFloatingPointTy, LLVMType.isPointerTy, emit_eq_append t c _ hipd]
    | i1 => rw [hv] at hpt; exact absurd hpt (by simp [LLVMType.isPointerTy])
    | i8 => rw [hv] at hpt; exact absurd hpt (by simp [LLVMType.isPointerTy])
    | i32 => rw [hv] at hpt; exact absurd hpt (by simp [LLVMType.isPointerTy])
    | f32 => rw [hv] at hpt; exact absurd hpt (by simp [LLVMType.isPointerTy])
    | void => rw [hv] at hpt; exact absurd hpt (by simp [LLVMType.isPointerTy])
  · have hcb1 : (s.create_block "andright").1 = s.next_block := rfl
    have hcb2 : ((s.create_block "andright").2.create_block "andend").1 =
      s.next_block + 1 := rfl
    simp only [generate_ir__logical_and, hip, hcb1, hcb2]
    rw [hL _ b h2st h2ip]
    simp only [cast_llvm_value_to_bool, hvL, if_true, reduceIte]
    rw [emit_discard_eq_append _ b _ (by simp [append_instrs_insert_point, hcp1, hip])]
    simp only []
    rw [hR _ s.next_block
      (by simp [hsp2, append_instrs_symbol_table, hcp2, hst]) (hsp1 _ _)]
    simp only [cast_llvm_value_to_bool, hvR, if_true, reduceIte]
    rw [emit_discard_eq_append _ s.next_block _
      (by simp [append_instrs_insert_point, hsp1])]
    simp only []
    rw [emit_eq_append _ (s.next_block + 1) _ (hsp1 _ _)]
    rfl
  · rw [block_named_append_ne _ _ _ _ (by omega), block_named_set_insert,
        block_named_append_ne _ _ _ _ (by omega),
        block_named_append_ne _ _ _ _ (by omega), block_named_set_insert,
        block_named_append_self _ _ _ _
          (block_named_append_self _ _ _ _ hbex2)]
    simp [tag_from, List.enum, create_block_next_val, append_instrs_next_val,
      set_insert_point_next_val]
  · rw [block_named_append_ne _ _ _ _ (by omega), block_named_set_insert,
        block_named_append_self _ _ _ _
          (block_named_append_self _ _ _ _ (by
            rw [block_named_set_insert, block_named_append_ne _ _ _ _ (by omega),
                block_named_append_ne _ _ _ _ (by omega),
                block_named_create_ne _ _ _ (by rw [create_block_next_block]; omega)]
            exact block_named_create_self s "andright" hfresh))]
    simp [tag_from, List.enum, create_block_next_val, append_instrs_next_val,
      set_insert_point_next_val]
  · rw [block_named_append_self _ _ _ _ (by
      rw [block_named_set_insert, block_named_append_ne _ _ _ _ (by omega),
          block_named_append_ne _ _ _ _ (by omega), block_named_set_insert,
          block_named_append_ne _ _ _ _ (by omega),
          block_named_append_ne _ _ _ _ (by omega)]
      exact block_named_create_self (s.create_block "andright").2 "andend"
        (create_block_fresh s "andright" hfresh))]
    simp [tag_from, List.enum, create_block_next_val, append_instrs_next_val,
      set_insert_point_next_val]
    rfl
  · rfl
  · have hcb1 : (s.create_block "orright").1 = s.next_block := rfl
    have hcb2 : ((s.create_block "orright").2.create_block "orend").1 =
      s.next_block + 1 := rfl
    simp only [generate_ir__logical_or, hip, hcb1, hcb2]
    rw [hL _ b h2sto h2ipo]
    simp only [cast_llvm_value_to_bool, hvL, if_true, reduceIte]
    rw [emit_discard_eq_append _ b _ (by simp [append_instrs_insert_point, hcp1, hip])]
    simp only []
    rw [hR _ s.next_block
      (by simp [hsp2, append_instrs_symbol_table, hcp2, hst]) (hsp1 _ _)]
    simp only [cast_llvm_value_to_bool, hvR, if_true, reduceIte]
    rw [emit_discard_eq_append _ s.next_block _
      (by simp [append_instrs_insert_point, hsp1])]
    simp only []
    rw [emit_eq_append _ (s.next_block + 1) _ (hsp1 _ _)]
    rfl
  · rw [block_named_append_ne _ _ _ _ (by omega), block_named_set_insert,
        block_named_append_ne _ _ _ _ (by omega),
        block_named_append_ne _ _ _ _ (by omega), block_named_set_insert,
        block_named_append_self _ _ _ _
          (block_named_append_self _ _ _ _ hbex2o)]
    simp [tag_from, List.enum, create_block_next_val, append_instrs_next_val,
      set_insert_point_next_val]
  · rw [block_named_append_ne _ _ _ _ (by omega), block_named_set_insert,
        block_named_append_self _ _ _ _
          (block_named_append_self _ _ _ _ (by
            rw [block_named_set_insert, block_named_append_ne _ _ _ _ (by omega),
                block_named_append_ne _ _ _ _ (by omega),
                block_named_create_ne _ _ _ (by rw [create_block_next_block]; omega)]
            exact block_named_create_self s "orright" hfresh))]
    simp [tag_from, List.enum, create_block_next_val, append_instrs_next_val,
      set_insert_point_next_val]
  · rw [block_named_append_self _ _ _ _ (by
      rw [block_named_set_insert, block_named_append_ne _ _ _ _ (by omega),
          block_named_append_ne _ _ _ _ (by omega), block_named_set_insert,
          block_named_append_ne _ _ _ _ (by omega),
          block_named_append_ne _ _ _ _ (by omega)]
      exact block_named_create_self (s.create_block "orright").2 "orend"
        (create_block_fresh s "orright" hfresh))]
    simp [tag_from, List.enum, create_block_next_val, append_instrs_next_val,
      set_insert_point_next_val]
    rfl
  · rfl

/-- Witness for C3 at `true && y` (`y` a `bool` local) from
`c3w_state`: the emission succeeds with the phi value 43, and the
`andend` block (id 2) holds exactly the phi
`[(false, entry), (load of y, andright)]`. -/
theorem C3_logical_and_or_contract_witness :
    generate_ir__logical_and 7 c3w_state
        (AST_Expression.literal T_BOOL (LitVal.b true)) (AST_Expression.ident "y") =
      .ok (some (instr_ref 43 i1), c3w_final) ∧
    c3w_final.block_named 2 =
      some ⟨2, "andend", [(43, Instruction.phi i1
        [(const_int i1 0, 0), (instr_ref 41 i1, 1)] "andtmp")]⟩ := by
  have hLw : ∀ n, emits_straight (n + 1) c3w_state.llvm_symbol_table
      (AST_Expression.literal T_BOOL (LitVal.b true))
      (fun _ => const_int i1 1) (fun _ => []) := by
    intro n t c ht h
    rw [append_instrs_nil]
    rfl
  have hRw : ∀ n, emits_straight (n + 1) c3w_state.llvm_symbol_table
      (AST_Expression.ident "y")
      (fun t => instr_ref t.next_val i1)
      (fun _ => [Instruction.load i1 (instr_ref 39 (ptr i1)) "y"]) := by
    intro n t c ht h
    simp only [generate_ir, ht]
    rw [show c3w_state.llvm_symbol_table.get "y" =
      some ⟨instr_ref 39 (ptr i1), i1⟩ from rfl]
    simp [emit_eq_append t c (Instruction.load i1 (instr_ref 39 (ptr i1)) "y") h]
  have h := C3_logical_and_or_contract (5 + 1) c3w_state 0
    c3w_state.llvm_symbol_table ⟨0, "entry", []⟩ _ _ _ _ _ _ _ _ _ _ _ _
    rfl rfl rfl (by intro blk hblk; simp [c3w_state] at hblk; simp [hblk, c3w_state])
    (hLw 5) (hRw 5) (fun _ => rfl) (fun _ => rfl) rfl rfl rfl rfl rfl rfl
  exact ⟨h.2.2.2.2.1, h.2.2.2.2.2.2.2.1⟩

end Em
